import Mathlib

/-!
# Verification of the PlasmaBOChemistry acquisition-and-actuation loop

A shallow embedding of the core of `utils/experiments.py` (`Experiment.run_open_loop`,
`exp_data_saver`), `utils/async_measurement.py` (`async_measure`, `async_get_temp`,
`async_get_spectra`, `async_get_osc`, `async_get_emb`) and `utils/run_options.py`
(`RunOpts`).

Modelling conventions:
* Python floats are modelled as rationals; numpy arrays become lists of rationals
  (matrices are lists of rows).
* Hardware driver calls (`getSurfaceTemperature`, `spec.intensities()`,
  `osc.collect_data_streaming()`, the serial line reader) are blocking external
  inputs; their returned values are parameters of the model (one `TickInputs`
  value per loop iteration).
* Fallible Python code is embedded in `Except String`: a raised exception
  becomes `Except.error msg`.  A Python variable that is only conditionally
  defined is modelled as an `Option` field; referencing it while it is `none`
  is a `NameError`, subscripting a `None` value is a `TypeError`.
* Wall-clock time is not executed: the per-tick elapsed time measured by the
  loop (`endTime - startTime`) is an input, and sleeping is recorded as an
  event rather than performed.
-/

/- The Batteries rational-number operations are `@[irreducible]`, which blocks
kernel evaluation of concrete runs; restore the default reducibility so that
`decide` can evaluate the model on concrete inputs. -/
set_option allowUnsafeReducibility true
attribute [semireducible] Rat.add Rat.sub Rat.mul Rat.inv Rat.div

/-- `N_PER_BAT_FILE = 200` (experiments.py line 33): frames per memmap batch file. -/
def N_PER_BAT_FILE : Nat := 200

/-- Embedding of `RunOpts` from `utils/run_options.py`: per-kind collect/save
flags and the sampling period `tSampling`. -/
structure RunOpts where
  collectData : Bool
  collectSpatialTemp : Bool
  collectEntireSpectra : Bool
  collectOscMeas : Bool
  collectEmbedded : Bool
  saveData : Bool
  saveSpatialTemp : Bool
  saveSpectra : Bool
  saveOscMeas : Bool
  saveEmbMeas : Bool
  saveEntireImage : Bool
  tSampling : ℚ
deriving DecidableEq, Repr

/-- The `img_data` value of `getSurfaceTemperature(True, True)`
(thermal_camera.py:228): the Python tuple `(data, img)` of the raw data
matrix and the rendered 8-bit image.  Neither array is inspected by the
core, so each is an opaque content tag.  Crucially the value is a tuple,
not an array: it has no `.shape` attribute, so `raw_img0.shape`
(experiments.py:231) and `raw_img.shape` (line 314) raise
`AttributeError`. -/
structure ImgData where
  data : Nat
  img : Nat
deriving DecidableEq, Repr

/-- Value returned by the driver call `getSurfaceTemperature(True, True)`
and handed back as the list `[Ts_max, Ts2, Ts3, img_data]` by
`async_get_temp`: maximum temperature, the two spatial temperatures, and
the `(data, img)` tuple. -/
structure ThermalReading where
  Ts_max : ℚ
  Ts2 : ℚ
  Ts3 : ℚ
  img : ImgData
deriving DecidableEq, Repr

/-- Raw spectrometer driver values: `spec.intensities()` and `spec.wavelengths()`. -/
structure SpecRaw where
  intensities : List ℚ
  wavelengths : List ℚ
deriving DecidableEq, Repr

/-- Value returned by `osc.collect_data_streaming()`: the timebase and one data
list per channel. -/
structure OscReading where
  timebase : List ℚ
  channels : List (List ℚ)
deriving DecidableEq, Repr

/-- External inputs consumed by one call to `async_measure`: the values the
four device drivers would produce on that tick, plus the wall-clock time the
loop measures from tick start through actuation (`endTime - startTime`). -/
structure TickInputs where
  thermal : ThermalReading
  specRaw : SpecRaw
  osc : OscReading
  emb : List ℚ
  elapsed : ℚ
deriving DecidableEq, Repr

/-- Device handles available in the `devices` dict of `run_open_loop`; each
flag records whether the corresponding handle is present (not `None`). -/
structure Devices where
  arduinoPI : Bool
  arduinoAddress : Bool
  spec : Bool
  osc : Bool
deriving DecidableEq, Repr

/-- `np.mean` of a list (sum divided by length). -/
def npMean (l : List ℚ) : ℚ := l.sum / l.length

/-- Result of `async_get_spectra` when data is collected: total intensity, the
mean-shifted spectrum, the wavelengths (`None` unless `collectEntireSpectra`),
and the mean shift. -/
structure SpecResult where
  totalIntensity : ℚ
  intensitySpectrum : List ℚ
  wavelengths : Option (List ℚ)
  meanShift : ℚ
deriving DecidableEq, Repr

/-- `async_get_temp` (async_measurement.py lines 49-77): returns the thermal
reading if `collectData`, else `None`. -/
def async_get_temp (o : RunOpts) (r : ThermalReading) : Option ThermalReading :=
  if o.collectData then some r else none

/-- `async_get_spectra` (async_measurement.py lines 80-107): if `collectData`
and the spectrometer handle is present, shift the raw intensities by the mean
of `intensitySpectrum[-20:-1]`, total the shifted spectrum from index 20 on,
and return the wavelengths only when `collectEntireSpectra`; otherwise `None`. -/
def async_get_spectra (specPresent : Bool) (o : RunOpts) (r : SpecRaw) : Option SpecResult :=
  if o.collectData && specPresent then
    let meanShift := npMean ((r.intensities.drop (r.intensities.length - 20)).dropLast)
    let spectrum := r.intensities.map (fun x => x - meanShift)
    some { totalIntensity := (spectrum.drop 20).sum
           intensitySpectrum := spectrum
           wavelengths := if o.collectEntireSpectra then some r.wavelengths else none
           meanShift := meanShift }
  else none

/-- `async_get_osc` (async_measurement.py lines 192-209): the oscilloscope
reading if `collectOscMeas` and the handle is present, else `None`. -/
def async_get_osc (oscPresent : Bool) (o : RunOpts) (r : OscReading) : Option OscReading :=
  if o.collectOscMeas && oscPresent then some r else none

/-- The value `async_get_emb` (async_measurement.py lines 110-189) hands back
to the loop: the decoded telemetry vector when `collectEmbedded` and the
Arduino handle is present, else `None`.  The interior line-reading loop of
`async_get_emb` is embedded separately below (`async_get_emb_loop`); here the
vector it eventually returns is taken as the tick input. -/
def async_get_emb_result (ardPresent : Bool) (o : RunOpts) (v : List ℚ) : Option (List ℚ) :=
  if o.collectEmbedded && ardPresent then some v else none

/-- The four task results of one `async_measure` call, bound by task-list
position: `tasks[0]` thermal, `tasks[1]` spectral, `tasks[2]` oscilloscope,
`tasks[3]` embedded. -/
structure MeasResults where
  thermal : Option ThermalReading
  spectral : Option SpecResult
  osc : Option OscReading
  emb : Option (List ℚ)
deriving DecidableEq, Repr

/-- `async_measure` (async_measurement.py lines 12-46): launch the four device
tasks and join on all of them; the result of task `k` is retrieved with
`tasks[k].result()`. -/
def async_measure (devs : Devices) (o : RunOpts) (inp : TickInputs) : MeasResults :=
  { thermal := async_get_temp o inp.thermal
    spectral := async_get_spectra devs.spec o inp.specRaw
    osc := async_get_osc devs.osc o inp.osc
    emb := async_get_emb_result devs.arduinoPI o inp.emb }

/-! ## Loop state and numpy-style array writes -/

/-- A numpy matrix as a list of rows. -/
abbrev Mat := List (List ℚ)

/-- Reference a Python variable that may not be defined / a value that may be
`None`; `none` raises with the given message. -/
def require {α : Type} (x : Option α) (msg : String) : Except String α :=
  match x with
  | some a => Except.ok a
  | none => Except.error msg

/-- `a[i] = v` on a 1-D numpy array. -/
def npSet (a : List ℚ) (i : Nat) (v : ℚ) : Except String (List ℚ) :=
  if i < a.length then Except.ok (a.set i v) else Except.error "IndexError: index out of bounds"

/-- `m[i, :] = row` on a 2-D numpy array: the assigned row must match the row
width, or be a single element (numpy broadcasting). -/
def npSetRow (m : Mat) (i : Nat) (row : List ℚ) : Except String Mat :=
  match m.get? i with
  | none => Except.error "IndexError: row index out of bounds"
  | some r =>
    if row.length = r.length then Except.ok (m.set i row)
    else match row with
      | [v] => Except.ok (m.set i (List.replicate r.length v))
      | _ => Except.error "ValueError: could not broadcast input array"

/-- A Python value bound to the spectral locals of the loop body: a numeric
sentinel (`-1`), an array, or `None`. -/
inductive PyVal where
  | num (q : ℚ)
  | arr (l : List ℚ)
  | pynone
deriving DecidableEq, Repr

/-- `np.ravel` of a `PyVal` (a scalar becomes a 1-element array; ravelling
`None` yields a content-free array). -/
def ravelVal : PyVal → List ℚ
  | PyVal.num q => [q]
  | PyVal.arr l => l
  | PyVal.pynone => []

/-- Events on the frame store: `del raw_img_save` (release the current memmap
backing), opening batch file `n` for writing, and writing a frame at `off`
into batch file `n` (the file backing the currently open memmap). -/
inductive FrameOp where
  | release
  | openBat (n : Nat)
  | write (n : Nat) (off : Nat) (f : ImgData)
deriving DecidableEq, Repr

/-- The mutable state of `run_open_loop` between iterations.  `Option` fields
are Python locals that exist only if the corresponding flag created them
(referencing a `none` field is a `NameError`). `frameEvents` is the trace of
frame-store operations, `sleeps` the list of `(tick, pauseTime)` sleeps
performed, `curFile` the batch file backing the open memmap. -/
structure LoopState where
  Tsave : Option (List ℚ)
  Isave : Option (List ℚ)
  badTimes : Option (List Nat)
  Ts2save : Option (List ℚ)
  Ts3save : Option (List ℚ)
  raw_img_files : Option Nat
  curFile : Option Nat
  frameEvents : List FrameOp
  waveSave : Option (List ℚ)
  specSave : Option Mat
  meanShiftSave : Option (List ℚ)
  n_channels : Option Nat
  oscSave : Option (List Mat)
  ArdSave : Option Mat
  raw_img : Option ImgData
  prevTime : ℚ
  sleeps : List (Nat × ℚ)
deriving DecidableEq, Repr

/-- The state of `run_open_loop` right after the initial measurement: no
containers exist yet. -/
def initialLoopState (prevTime : ℚ) : LoopState :=
  { Tsave := none, Isave := none, badTimes := none, Ts2save := none, Ts3save := none
    raw_img_files := none, curFile := none, frameEvents := []
    waveSave := none, specSave := none, meanShiftSave := none
    n_channels := none, oscSave := none, ArdSave := none
    raw_img := none, prevTime := prevTime, sleeps := [] }

/-! ## Pre-loop container setup (experiments.py lines 209-260) -/

/-- Lines 221-224: `Tsave`, `Isave`, `badTimes` when `saveData`.  `np.empty`
allocations are modelled with zero-filled lists (numpy leaves the contents
unspecified). -/
def setupSaveData (o : RunOpts) (Niter : Nat) (st : LoopState) : LoopState :=
  if o.saveData then
    { st with Tsave := some (List.replicate Niter 0)
              Isave := some (List.replicate Niter 0)
              badTimes := some [] }
  else st

/-- Lines 225-227: `Ts2save`, `Ts3save` when `saveSpatialTemp`. -/
def setupSpatial (o : RunOpts) (Niter : Nat) (st : LoopState) : LoopState :=
  if o.saveSpatialTemp then
    { st with Ts2save := some (List.replicate Niter 0)
              Ts3save := some (List.replicate Niter 0) }
  else st

/-- Lines 228-234: `raw_img0 = thermalCamOut[3]` and the memmap options
when `saveEntireImage`.  `raw_img0` is the `(data, img)` tuple, so the
`raw_img0.shape` read of line 231 raises `AttributeError`: the batch file
names of line 233 are never created and no `saveEntireImage` setup
succeeds. -/
def setupImage (o : RunOpts) (Niter : Nat) (thermalCamOut : Option ThermalReading)
    (st : LoopState) : Except String LoopState :=
  if o.saveEntireImage then do
    let _raw_img0 ← require thermalCamOut
      "TypeError: NoneType object is not subscriptable (thermalCamOut)"
    Except.error "AttributeError: tuple object has no attribute shape"
  else Except.ok st

/-- Lines 235-244: the spectral containers (`waveSave` is sized by
`len(specOut[2])`, raising when the wavelengths are `None`), or the
auto-disable of `saveSpectra` when the initial spectral reading is `None`. -/
def setupSpectra (o : RunOpts) (Niter : Nat) (specOut : Option SpecResult)
    (st : LoopState) : Except String (RunOpts × LoopState) :=
  if o.saveSpectra then
    match specOut with
    | some s => do
      let wl ← require s.wavelengths "TypeError: object of type NoneType has no len()"
      Except.ok (o,
        { st with waveSave := some (List.replicate wl.length 0)
                  specSave := some (List.replicate Niter (List.replicate wl.length 0))
                  meanShiftSave := some (List.replicate Niter 0) })
    | none => Except.ok ({ o with saveSpectra := false }, st)
  else Except.ok (o, st)

/-- Lines 245-254: `n_channels` and the per-channel `(Niter+1) x len(timebase)`
matrices, or the auto-disable of `saveOscMeas` when the initial oscilloscope
reading is `None`. -/
def setupOsc (o : RunOpts) (Niter : Nat) (oscOut : Option OscReading)
    (st : LoopState) : RunOpts × LoopState :=
  if o.saveOscMeas then
    match oscOut with
    | some w =>
      (o, { st with n_channels := some w.channels.length
                    oscSave := some (List.replicate w.channels.length
                      (List.replicate (Niter + 1) (List.replicate w.timebase.length 0))) })
    | none => ({ o with saveOscMeas := false }, st)
  else (o, st)

/-- Lines 255-260: the `Niter x len(arduinoOut)` embedded matrix, or the
auto-disable of `saveEmbMeas` when the initial embedded reading is `None`. -/
def setupEmb (o : RunOpts) (Niter : Nat) (arduinoOut : Option (List ℚ))
    (st : LoopState) : RunOpts × LoopState :=
  if o.saveEmbMeas then
    match arduinoOut with
    | some v => (o, { st with ArdSave := some (List.replicate Niter (List.replicate v.length 0)) })
    | none => ({ o with saveEmbMeas := false }, st)
  else (o, st)

/-- The container-allocation block of `run_open_loop` (lines 220-260), run
after the initial measurement: the blocks above in source order. -/
def setupContainers (o : RunOpts) (Niter : Nat)
    (thermalCamOut : Option ThermalReading) (specOut : Option SpecResult)
    (oscOut : Option OscReading) (arduinoOut : Option (List ℚ)) (prevTime : ℚ) :
    Except String (RunOpts × LoopState) := do
  let st1 := setupSaveData o Niter (initialLoopState prevTime)
  let st2 := setupSpatial o Niter st1
  let st3 ← setupImage o Niter thermalCamOut st2
  let r4 ← setupSpectra o Niter specOut st3
  let r5 := setupOsc r4.1 Niter oscOut r4.2
  let r6 := setupEmb r5.1 Niter arduinoOut r5.2
  Except.ok r6

/-- The pre-loop phase of `run_open_loop` (lines 209-260): the initial
`async_measure` call, the `Ts0 = thermalCamOut[0]` and `I0 = specOut[0]`
subscripts, then container setup. -/
def setupRun (o : RunOpts) (devs : Devices) (Niter : Nat) (init : TickInputs)
    (prevTime : ℚ) : Except String (RunOpts × LoopState) := do
  let r := async_measure devs o init
  let _Ts0 ← require r.thermal
    "TypeError: NoneType object is not subscriptable (thermalCamOut[0])"
  let _I0 ← require r.spectral
    "TypeError: NoneType object is not subscriptable (specOut[0])"
  setupContainers o Niter r.thermal r.spectral r.osc r.emb prevTime

/-! ## One loop iteration (experiments.py lines 262-362) -/

/-- The thermal unpack of the loop body (lines 272-284): a present reading
yields `Ts`, `Ts2`, `Ts3` and assigns `raw_img`; an absent one sets the three
temperatures to the sentinel `-300` and leaves `raw_img` unassigned. -/
def unpackThermal (r : Option ThermalReading) : (ℚ × ℚ × ℚ) × Option ImgData :=
  match r with
  | some t => ((t.Ts_max, t.Ts2, t.Ts3), some t.img)
  | none => ((-300, -300, -300), none)

/-- The spectral unpack of the loop body (lines 287-300): a present reading
yields the four spectrometer locals; an absent one sets all four to the
sentinel `-1`. -/
def unpackSpectral (r : Option SpecResult) :
    ℚ × PyVal × PyVal × ℚ :=
  match r with
  | some s =>
    (s.totalIntensity, PyVal.arr s.intensitySpectrum,
      (match s.wavelengths with
       | some wl => PyVal.arr wl
       | none => PyVal.pynone),
      s.meanShift)
  | none => (-1, PyVal.num (-1), PyVal.num (-1), -1)

/-- Lines 303-305: `Tsave[i] = Ts; Isave[i] = totalIntensity` when `saveData`. -/
def tickSaveScalar (o : RunOpts) (i : Nat) (Ts totalIntensity : ℚ) (st : LoopState) :
    Except String LoopState :=
  if o.saveData then do
    let T ← require st.Tsave "NameError: name Tsave is not defined"
    let T' ← npSet T i Ts
    let I ← require st.Isave "NameError: name Isave is not defined"
    let I' ← npSet I i totalIntensity
    Except.ok { st with Tsave := some T', Isave := some I' }
  else Except.ok st

/-- Lines 306-308: `Ts2save[i] = Ts2; Ts3save[i] = Ts3` when `saveSpatialTemp`. -/
def tickSpatial (o : RunOpts) (i : Nat) (Ts2 Ts3 : ℚ) (st : LoopState) :
    Except String LoopState :=
  if o.saveSpatialTemp then do
    let a ← require st.Ts2save "NameError: name Ts2save is not defined"
    let a' ← npSet a i Ts2
    let b ← require st.Ts3save "NameError: name Ts3save is not defined"
    let b' ← npSet b i Ts3
    Except.ok { st with Ts2save := some a', Ts3save := some b' }
  else Except.ok st

/-- Lines 310-313: on `i mod N_PER_BAT_FILE == 0` the current memmap backing
is deleted and batch file `i / N_PER_BAT_FILE` is opened for writing. -/
def tickImageRoll (i : Nat) (st : LoopState) : Except String LoopState :=
  if i % N_PER_BAT_FILE = 0 then do
    let n := i / N_PER_BAT_FILE
    let cnt ← require st.raw_img_files "NameError: name raw_img_save_files is not defined"
    if n < cnt then
      Except.ok { st with
        frameEvents := st.frameEvents ++ [FrameOp.release, FrameOp.openBat n]
        curFile := some n }
    else Except.error "IndexError: list index out of range (raw_img_save_files)"
  else Except.ok st

/-- Lines 314-318: the `len(raw_img.shape)` dispatch before the frame
write.  `raw_img` is the `(data, img)` tuple, so the attribute read raises
`AttributeError` - a tick of the image-saving path can never complete (were
the loop ever reached with `saveEntireImage` on). -/
def tickImageWrite (i : Nat) (st : LoopState) : Except String LoopState := do
  let _raw_img ← require st.raw_img "NameError: name raw_img is not defined"
  Except.error "AttributeError: tuple object has no attribute shape"

/-- Lines 309-318, the frame store: the batch rollover then the attempted frame write. -/
def tickImage (o : RunOpts) (i : Nat) (st : LoopState) : Except String LoopState :=
  if o.saveEntireImage then tickImageRoll i st >>= tickImageWrite i
  else Except.ok st

/-- Lines 320-325: on tick 0 `waveSave` is replaced by the ravelled
wavelengths; every tick writes the ravelled spectrum into row `i` of
`specSave` and the mean shift into `meanShiftSave[i]`. -/
def tickSpectraSave (o : RunOpts) (i : Nat) (intensitySpectrum wavelengths : PyVal)
    (meanShift : ℚ) (st : LoopState) : Except String LoopState :=
  if o.saveSpectra then do
    let st := if i = 0 then { st with waveSave := some (ravelVal wavelengths) } else st
    let m ← require st.specSave "NameError: name specSave is not defined"
    let m' ← npSetRow m i (ravelVal intensitySpectrum)
    let ms ← require st.meanShiftSave "NameError: name meanShiftSave is not defined"
    let ms' ← npSet ms i meanShift
    Except.ok { st with specSave := some m', meanShiftSave := some ms' }
  else Except.ok st

/-- Lines 330-332, one channel: on tick 0 row 0 of the channel matrix receives
the timebase; every tick row `i + 1` receives the channel data. -/
def oscWriteChan (m : Mat) (w : OscReading) (c i : Nat) : Except String Mat := do
  let chan ← require (w.channels.get? c) "IndexError: list index out of range (channels)"
  let m ← if i = 0 then npSetRow m 0 w.timebase else Except.ok m
  npSetRow m (i + 1) chan

/-- Lines 327-332: `for c in range(n_channels)` writing each channel matrix. -/
def tickOsc (o : RunOpts) (i : Nat) (oscOut : Option OscReading) (st : LoopState) :
    Except String LoopState :=
  if o.saveOscMeas then do
    let w ← require oscOut "TypeError: NoneType object is not subscriptable (oscOut)"
    let nch ← require st.n_channels "NameError: name n_channels is not defined"
    let ms ← require st.oscSave "NameError: name oscSave is not defined"
    let ms' ← (List.range nch).foldlM (fun (acc : List Mat) c => do
        let m ← require (acc.get? c) "IndexError: list index out of range (oscSave)"
        let m' ← oscWriteChan m w c i
        Except.ok (acc.set c m')) ms
    Except.ok { st with oscSave := some ms' }
  else Except.ok st

/-- Lines 334-337: `prevTime = arduinoOut[0]` (a `None` result or an empty
vector raises) and the `ArdSave[i, :]` write when `saveEmbMeas`. -/
def tickEmb (o : RunOpts) (i : Nat) (arduinoOut : Option (List ℚ)) (st : LoopState) :
    Except String LoopState := do
  let v ← require arduinoOut "TypeError: NoneType object is not subscriptable (arduinoOut)"
  let t ← require v.head? "IndexError: index 0 is out of bounds"
  let st := { st with prevTime := t }
  if o.saveEmbMeas then do
    let m ← require st.ArdSave "NameError: name ArdSave is not defined"
    let m' ← npSetRow m i v
    Except.ok { st with ArdSave := some m' }
  else Except.ok st

/-- Lines 350-362, the deadline scheduler: `pauseTime = tSampling - runTime`;
a positive remainder is slept (recorded in `sleeps`), otherwise the tick index
is appended to `badTimes` - but only when `saveData` is on. -/
def tickTiming (o : RunOpts) (i : Nat) (elapsed : ℚ) (st : LoopState) :
    Except String LoopState :=
  let pauseTime := o.tSampling - elapsed
  if pauseTime > 0 then
    Except.ok { st with sleeps := st.sleeps ++ [(i, pauseTime)] }
  else
    if o.saveData then do
      let bt ← require st.badTimes "NameError: name badTimes is not defined"
      Except.ok { st with badTimes := some (bt ++ [i]) }
    else Except.ok st

/-- Apply the `raw_img` assignment of the thermal unpack (a `none` leaves the
previous `raw_img` in place, as the Python local keeps its old value). -/
def applyImgUpd (st : LoopState) : Option ImgData → LoopState
  | some f => { st with raw_img := some f }
  | none => st

/-- One iteration of the `for i in range(Niter)` loop of `run_open_loop`
(lines 262-362): measure all devices, unpack with sentinels (`u.1` is
`(Ts, Ts2, Ts3)`, `u.2` the `raw_img` assignment; `sp` is `(totalIntensity,
intensitySpectrum, wavelengths, meanShift)`), perform all enabled saves, issue
the actuation command `sendControlledInputsArduino(power_seq[i], flow_seq[i])`,
then run the deadline scheduler. -/
def loopBody (o : RunOpts) (devs : Devices) (power_seq flow_seq : List ℚ)
    (i : Nat) (inp : TickInputs) (st : LoopState) : Except String LoopState := do
  let r := async_measure devs o inp
  let u := unpackThermal r.thermal
  let st := applyImgUpd st u.2
  let sp := unpackSpectral r.spectral
  let st ← tickSaveScalar o i u.1.1 sp.1 st
  let st ← tickSpatial o i u.1.2.1 u.1.2.2 st
  let st ← tickImage o i st
  let st ← tickSpectraSave o i sp.2.1 sp.2.2.1 sp.2.2.2 st
  let st ← tickOsc o i r.osc st
  let st ← tickEmb o i r.emb st
  -- ard.sendControlledInputsArduino(arduinoPI, float(power_seq[i]), float(flow_seq[i]), ...)
  let _P ← require (power_seq.get? i) "IndexError: power_seq index out of range"
  let _q ← require (flow_seq.get? i) "IndexError: flow_seq index out of range"
  tickTiming o i inp.elapsed st

/-- The ticks `0, ..., k-1` of the measurement loop, run in order. -/
def runLoop (o : RunOpts) (devs : Devices) (power_seq flow_seq : List ℚ)
    (ticks : Nat → TickInputs) (st0 : LoopState) : Nat → Except String LoopState
  | 0 => Except.ok st0
  | k + 1 => do
    let st ← runLoop o devs power_seq flow_seq ticks st0 k
    loopBody o devs power_seq flow_seq k (ticks k) st

/-! ## Run record construction (experiments.py lines 364-414) -/

/-- The `exp_data` dictionary built at run end.  Fields that are only inserted
under a flag are `Option` (reading a missing key in `exp_data_saver` is a
`KeyError`). -/
structure ExpData where
  Niter : Nat
  Tsave : List ℚ
  Isave : List ℚ
  Psave : List ℚ
  qSave : List ℚ
  badTimes : List Nat
  Ts2save : Option (List ℚ)
  Ts3save : Option (List ℚ)
  raw_img_files : Option Nat
  mmapN : Option Nat
  waveSave : Option (List ℚ)
  specSave : Option Mat
  meanShiftSave : Option (List ℚ)
  oscSave : Option (List Mat)
  ArdSave : Option Mat
deriving DecidableEq, Repr

/-- Lines 378-380: the spatial arrays, keyed on `collectSpatialTemp` (they
exist only when `saveSpatialTemp` allocated them). -/
def buildSpatialField (o : RunOpts) (st : LoopState) (d : ExpData) :
    Except String ExpData :=
  if o.collectSpatialTemp then do
    let a ← require st.Ts2save "NameError: name Ts2save is not defined"
    let b ← require st.Ts3save "NameError: name Ts3save is not defined"
    Except.ok { d with Ts2save := some a, Ts3save := some b }
  else Except.ok d

/-- Lines 381-384: the batch file names and memmap options, under
`saveEntireImage`. -/
def buildImageField (o : RunOpts) (st : LoopState) (d : ExpData) :
    Except String ExpData :=
  if o.saveEntireImage then do
    let c ← require st.raw_img_files "NameError: name raw_img_save_files is not defined"
    Except.ok { d with raw_img_files := some c, mmapN := some N_PER_BAT_FILE }
  else Except.ok d

/-- Lines 385-391: the spectral arrays, keyed on `collectEntireSpectra`. -/
def buildSpectraField (o : RunOpts) (st : LoopState) (d : ExpData) :
    Except String ExpData :=
  if o.collectEntireSpectra then do
    let w ← require st.waveSave "NameError: name waveSave is not defined"
    let s ← require st.specSave "NameError: name specSave is not defined"
    let m ← require st.meanShiftSave "NameError: name meanShiftSave is not defined"
    Except.ok { d with waveSave := some w, specSave := some s, meanShiftSave := some m }
  else Except.ok d

/-- Lines 392-394: the oscilloscope matrices, keyed on `collectOscMeas`. -/
def buildOscField (o : RunOpts) (st : LoopState) (d : ExpData) :
    Except String ExpData :=
  if o.collectOscMeas then do
    let os ← require st.oscSave "NameError: name oscSave is not defined"
    Except.ok { d with oscSave := some os }
  else Except.ok d

/-- Lines 395-397: the embedded matrix, keyed on `collectEmbedded`. -/
def buildEmbField (o : RunOpts) (st : LoopState) (d : ExpData) :
    Except String ExpData :=
  if o.collectEmbedded then do
    let a ← require st.ArdSave "NameError: name ArdSave is not defined"
    Except.ok { d with ArdSave := some a }
  else Except.ok d

/-- Lines 370-399: build `exp_data` from the loop state.  `Tsave`, `Isave` and
`badTimes` are referenced unconditionally (a `NameError` when `saveData` never
defined them); the optional blocks follow, keyed partly on the `collect*`
flags even though the arrays were created under the `save*` flags. -/
def buildExpData (o : RunOpts) (power_seq flow_seq : List ℚ) (Niter : Nat)
    (st : LoopState) : Except String ExpData := do
  let Tsave ← require st.Tsave "NameError: name Tsave is not defined"
  let Isave ← require st.Isave "NameError: name Isave is not defined"
  let badTimes ← require st.badTimes "NameError: name badTimes is not defined"
  let d0 : ExpData :=
    { Niter := Niter, Tsave := Tsave, Isave := Isave
      Psave := power_seq, qSave := flow_seq, badTimes := badTimes
      Ts2save := none, Ts3save := none, raw_img_files := none, mmapN := none
      waveSave := none, specSave := none, meanShiftSave := none
      oscSave := none, ArdSave := none }
  let d1 ← buildSpatialField o st d0
  let d2 ← buildImageField o st d1
  let d3 ← buildSpectraField o st d2
  let d4 ← buildOscField o st d3
  buildEmbField o st d4

/-! ## Per-kind artifact persistence: `exp_data_saver` (experiments.py lines 427-621) -/

/-- The output artifacts `exp_data_saver` can write.  The oscilloscope archive
records its channel-letter keys with the matrix saved under each key; an image
artifact is one archival file `iter<idx>.h5`. -/
inductive Artifact where
  | backup
  | combined
  | badTimesFile (l : List Nat)
  | spatial
  | spectra
  | oscArchive (keyed : List (String × Mat))
  | embedded
  | image (idx : Nat)
deriving DecidableEq, Repr

/-- Saver state: the artifacts written so far, and the pending uncaught
exception (if one was raised). -/
abbrev SaverSt := List Artifact × Option String

/-- Run the next artifact block unless an exception is already propagating:
`exp_data_saver` has no exception handling, so a raised exception skips every
later block. -/
def saverStep (st : SaverSt) (f : List Artifact -> SaverSt) : SaverSt :=
  match st.2 with
  | some _ => st
  | none => f st.1

/-- Lines 445-475: the combined input/output table (an `np.hstack` of the four
column reshapes, which requires equal lengths) and, when overruns were
recorded, the overrun-index list. -/
def saveDataBlock (d : ExpData) (o : RunOpts) (arts : List Artifact) : SaverSt :=
  if o.saveData then
    if d.Tsave.length = d.Isave.length ∧ d.Tsave.length = d.Psave.length ∧
        d.Tsave.length = d.qSave.length then
      if d.badTimes ≠ [] then
        (arts ++ [Artifact.combined, Artifact.badTimesFile d.badTimes], none)
      else (arts ++ [Artifact.combined], none)
    else (arts, some "ValueError: all the input array dimensions must match (hstack)")
  else (arts, none)

/-- Lines 477-495: the spatial-temperature table (reading `exp_data` keys that
exist only when the spatial arrays were stored). -/
def spatialBlock (d : ExpData) (o : RunOpts) (arts : List Artifact) : SaverSt :=
  if o.saveSpatialTemp then
    match d.Ts2save, d.Ts3save with
    | some a, some b =>
      if d.Tsave.length = a.length ∧ d.Tsave.length = b.length then
        (arts ++ [Artifact.spatial], none)
      else (arts, some "ValueError: all the input array dimensions must match (hstack)")
    | _, _ => (arts, some "KeyError: Ts2save")
  else (arts, none)

/-- Lines 497-517: the compressed spectral archive. -/
def spectraBlock (d : ExpData) (o : RunOpts) (arts : List Artifact) : SaverSt :=
  if o.saveSpectra then
    match d.waveSave, d.specSave, d.meanShiftSave with
    | some _, some _, some _ => (arts ++ [Artifact.spectra], none)
    | _, _, _ => (arts, some "KeyError: waveSave")
  else (arts, none)

/-- Lines 519-560: the compressed oscilloscope archive, keyed by channel
letter.  With 4 channels the source writes `chD=oscSave[4]`, indexing past the
end of the 4-element list; with 5 or more channels it prints
"too many channels!" and writes nothing (no exception). -/
def oscBlock (d : ExpData) (o : RunOpts) (arts : List Artifact) : SaverSt :=
  if o.saveOscMeas then
    match d.oscSave with
    | none => (arts, some "KeyError: oscSave")
    | some os =>
      match os with
      | [m0] => (arts ++ [Artifact.oscArchive [("chA", m0)]], none)
      | [m0, m1] => (arts ++ [Artifact.oscArchive [("chA", m0), ("chB", m1)]], none)
      | [m0, m1, m2] =>
        (arts ++ [Artifact.oscArchive [("chA", m0), ("chB", m1), ("chC", m2)]], none)
      | [m0, m1, m2, _m3] =>
        match os.get? 4 with
        | some m4 =>
          (arts ++ [Artifact.oscArchive
            [("chA", m0), ("chB", m1), ("chC", m2), ("chD", m4)]], none)
        | none => (arts, some "IndexError: list index out of range (oscSave)")
      | _ => (arts, none)
  else (arts, none)

/-- Lines 562-576: the embedded-telemetry table with its fixed 14-column
header. -/
def embBlock (d : ExpData) (o : RunOpts) (arts : List Artifact) : SaverSt :=
  if o.saveEmbMeas then
    match d.ArdSave with
    | some _ => (arts ++ [Artifact.embedded], none)
    | none => (arts, some "KeyError: ArdSave")
  else (arts, none)

/-- Lines 578-616: replay every batch file in order; slot `i` of batch `n`
becomes the archival file `iter(n*N_PER_BAT_FILE+i).h5` whenever
`n*N_PER_BAT_FILE+i <= Niter` (the literal source condition). -/
def imagesBlock (d : ExpData) (o : RunOpts) (arts : List Artifact) : SaverSt :=
  if o.saveEntireImage then
    match d.raw_img_files, d.mmapN with
    | some cnt, some nPer =>
      ((List.range cnt).foldl (fun acc n =>
        (List.range nPer).foldl (fun acc2 i =>
          if n * nPer + i ≤ d.Niter then acc2 ++ [Artifact.image (n * nPer + i)]
          else acc2) acc) arts, none)
    | _, _ => (arts, some "KeyError: raw_img_save_files")
  else (arts, none)

/-- `exp_data_saver` (lines 427-621): each enabled artifact kind is written in
source order; there is no exception handling, so the first uncaught exception
stops the function.  The result is the list of artifacts written before any
failure, together with the failure (if one occurred). -/
def exp_data_saver (d : ExpData) (o : RunOpts) : List Artifact × Option String :=
  saverStep (saverStep (saverStep (saverStep (saverStep
    (saveDataBlock d o []) (spatialBlock d o)) (spectraBlock d o))
    (oscBlock d o)) (embBlock d o)) (imagesBlock d o)

/-! ## The full run (experiments.py lines 131-424) -/

/-- `Experiment.run_open_loop` up to and including the JSON backup write
(lines 131-414), for the case that both input sequences are provided (the
interactive prompt paths that synthesize a missing sequence are outside the
model).  `Niter` is the shorter sequence length; after the pre-loop setup and
the measurement loop, the final memmap backing is released and `exp_data` is
built. -/
def runToRecord (o : RunOpts) (devices : Option Devices)
    (power_seq flow_seq : List ℚ) (init : TickInputs) (ticks : Nat → TickInputs)
    (prevTime : ℚ) : Except String (RunOpts × ExpData × LoopState) := do
  let nP := power_seq.length
  let nq := flow_seq.length
  let Niter := if nP > nq then nq else if nq > nP then nP else nP
  -- if devices is None: raise
  let devs ← require devices "RuntimeError: device information not given"
  let (o, st0) ← setupRun o devs Niter init prevTime
  let st ← runLoop o devs power_seq flow_seq ticks st0 Niter
  -- ard.sendInputsArduino(arduinoPI, 0.0, 0.0, 100.0, ...); raw_img_save = []; del
  let st := if st.curFile.isSome then
      { st with frameEvents := st.frameEvents ++ [FrameOp.release], curFile := none }
    else st
  let d ← buildExpData o power_seq flow_seq Niter st
  -- json.dump of exp_data (the backup copy) happens here
  Except.ok (o, d, st)

/-- The full `Experiment.run_open_loop` (lines 131-424): the run up to the
backup record, then the segregated per-kind files via `exp_data_saver` (whose
uncaught exceptions propagate and abort the run). -/
def run_open_loop (o : RunOpts) (devices : Option Devices)
    (power_seq flow_seq : List ℚ) (init : TickInputs) (ticks : Nat → TickInputs)
    (prevTime : ℚ) : Except String (ExpData × List Artifact × LoopState) := do
  let (o, d, st) ← runToRecord o devices power_seq flow_seq init ticks prevTime
  let (arts, err) := exp_data_saver d o
  match err with
  | some e => Except.error e
  | none => Except.ok (d, Artifact.backup :: arts, st)

/-! ## The embedded-telemetry line protocol (async_measurement.py lines 146-187)

The interior of `async_get_emb`: read a line, validate it with the CRC8
checksum (`is_line_valid`, from the arduino utility module), discard and retry
on a failed checksum or a transport exception, and decode the first valid line
by fixed comma-separated position.  A line is modelled by its checksum verdict
together with its comma-separated fields already parsed as numbers; a field
the line does not have is a missing list entry (`float(data[k])` then raises). -/

/-- One line received from the device: the `is_line_valid` checksum verdict and
the split fields. -/
structure EmbLine where
  valid : Bool
  fields : List ℚ
deriving DecidableEq, Repr

/-- One `dev.readline()` outcome: a transport exception, or a line. -/
inductive ReadEvt where
  | fail
  | line (l : EmbLine)
deriving DecidableEq, Repr

/-- The locals of `async_get_emb` with their defaults (lines 135-144).  `U` and
`elec` are only rebuilt from the parsed fields at the very end of a complete
parse. -/
structure EmbVars where
  Is : ℚ := 0
  U : List ℚ := [0, 0, 0]
  x_pos : ℚ := 0
  y_pos : ℚ := 0
  dsep : ℚ := 0
  T_emb : ℚ := 0
  elec : List ℚ := [0, 0]
  P_emb : ℚ := 0
  Pset : ℚ := 0
  Dc : ℚ := 0
deriving DecidableEq, Repr

/-- Lines 161-177: after the timestamp parsed, the remaining fields are read in
source order (`data[1]` ... `data[11]`, `data[13]`, `data[14]`; `data[12]` is
never read).  A missing field raises inside the `try`, which is caught with the
locals assigned so far kept and the rest left at their defaults; `U` and `elec`
are only assigned after `data[14]`. -/
def embAssign (d : List ℚ) : EmbVars := Id.run do
  let mut v : EmbVars := {}
  let some V := d.get? 1 | return v
  let some f := d.get? 2 | return v
  let some q := d.get? 3 | return v
  let some dsep := d.get? 4 | return v
  v := { v with dsep := dsep }
  let some Dc := d.get? 5 | return v
  v := { v with Dc := Dc }
  let some Is := d.get? 6 | return v
  v := { v with Is := Is }
  let some V_emb := d.get? 7 | return v
  let some T_emb := d.get? 8 | return v
  v := { v with T_emb := T_emb }
  let some I_emb := d.get? 9 | return v
  let some x_pos := d.get? 10 | return v
  v := { v with x_pos := x_pos }
  let some y_pos := d.get? 11 | return v
  v := { v with y_pos := y_pos }
  let some Pset := d.get? 13 | return v
  v := { v with Pset := Pset }
  let some P_emb := d.get? 14 | return v
  v := { v with P_emb := P_emb, U := [V, f, q], elec := [V_emb, I_emb] }
  return v

/-- Line 185-187: the returned array
`[timeStamp, Is, *U, x_pos, y_pos, dsep, T_emb, P_emb, Pset, Dc, *elec]`. -/
def embArr (timeStamp : ℚ) (v : EmbVars) : List ℚ :=
  [timeStamp, v.Is] ++ v.U ++ [v.x_pos, v.y_pos, v.dsep, v.T_emb, v.P_emb, v.Pset, v.Dc] ++ v.elec

/-- Decoding one checksum-valid line: `timeStamp = float(data[0])` (a raise
here is caught and the read retried, `run` still true), then the positional
parse and the final array. -/
def embParseLine (d : List ℚ) : Option (List ℚ) :=
  match d.get? 0 with
  | none => none
  | some timeStamp => some (embArr timeStamp (embAssign d))

/-- The `while run` read loop (lines 147-183) over a stream of read outcomes:
transport failures and checksum-invalid lines are discarded and the read
retried (there is no retry bound - the loop only ends on a decoded line, and
an exhausted stream means it is still retrying). -/
def async_get_emb_loop : List ReadEvt → Option (List ℚ)
  | [] => none
  | ReadEvt.fail :: rest => async_get_emb_loop rest
  | ReadEvt.line l :: rest =>
    if l.valid then
      match embParseLine l.fields with
      | some arr => some arr
      | none => async_get_emb_loop rest
    else async_get_emb_loop rest

/-! ## The concurrent sampler as a scheduler-order model (async_measurement.py
lines 32-46, experiments.py lines 266-347)

`async_measure` creates the task list `[temp, spectra, osc, emb]`, awaits
`asyncio.wait(tasks)` (all of them), and the loop then reads results by task
identity (`tasks[k].result()`) and only afterwards issues the actuation
command.  The cooperative scheduler may complete the tasks in any order: an
order is a permutation `σ` of the four task ids, and the completion log lists
`(task id, result)` pairs in completion order.  Result retrieval looks the task
id up in the log, so it does not depend on `σ`. -/

/-- A completed task's value (one constructor per device task). -/
inductive MeasResult where
  | thermalR (r : Option ThermalReading)
  | spectralR (r : Option SpecResult)
  | oscR (r : Option OscReading)
  | embR (r : Option (List ℚ))
deriving DecidableEq, Repr

/-- The task list ids in creation order: 0 thermal, 1 spectral, 2 oscilloscope,
3 embedded. -/
def taskIds : List (Fin 4) := [0, 1, 2, 3]

/-- The value task `k` computes (the same computations as `async_measure`). -/
def taskRun (devs : Devices) (o : RunOpts) (inp : TickInputs) (k : Fin 4) : MeasResult :=
  match k.val with
  | 0 => MeasResult.thermalR (async_get_temp o inp.thermal)
  | 1 => MeasResult.spectralR (async_get_spectra devs.spec o inp.specRaw)
  | 2 => MeasResult.oscR (async_get_osc devs.osc o inp.osc)
  | _ => MeasResult.embR (async_get_emb_result devs.arduinoPI o inp.emb)

/-- The completion log of one `asyncio.wait`: the four tasks finish in the
order `σ 0, σ 1, σ 2, σ 3`, each recording its id and its value. -/
def completionLog (σ : Equiv.Perm (Fin 4)) (devs : Devices) (o : RunOpts)
    (inp : TickInputs) : List (Fin 4 × MeasResult) :=
  (taskIds.map σ).map (fun k => (k, taskRun devs o inp k))

/-- `tasks[k].result()`: look task `k` up in the completion log. -/
def taskResult (log : List (Fin 4 × MeasResult)) (k : Fin 4) : Option MeasResult :=
  (log.find? (fun p => p.1 == k)).map Prod.snd

/-- Observable events of one tick under completion order `σ`: the four task
completions, the return of `asyncio.wait` (join on all tasks), then the
actuation `sendControlledInputsArduino(power_seq[i], flow_seq[i])`. -/
inductive TickEvent where
  | completes (k : Fin 4)
  | join
  | actuate (P q : ℚ)
deriving DecidableEq, Repr

/-- The event trace of one tick: completions in scheduler order, the join,
then the actuation. -/
def tickEvents (σ : Equiv.Perm (Fin 4)) (P q : ℚ) : List TickEvent :=
  (taskIds.map σ).map TickEvent.completes ++ [TickEvent.join, TickEvent.actuate P q]

/-! ## Trace observations and miscellaneous helpers -/

/-- The write events of a frame-op trace, as `(batch file, offset, frame)`. -/
def writesOf (tr : List FrameOp) : List (Nat × Nat × ImgData) :=
  tr.filterMap (fun e =>
    match e with
    | FrameOp.write n off f => some (n, off, f)
    | _ => none)

/-- Is the event the opening of a batch file? -/
def isOpenEv : FrameOp → Bool
  | FrameOp.openBat _ => true
  | _ => false

/-- Length of an optional list. -/
def optLen (x : Option (List ℚ)) : Option Nat := x.map List.length

/-- Did the computation succeed? -/
def exceptIsOk {α : Type} : Except String α → Bool
  | Except.ok _ => true
  | Except.error _ => false

/-! ## Concrete run configurations used below -/

/-- All four device handles present. -/
def devsAll : Devices :=
  { arduinoPI := true, arduinoAddress := true, spec := true, osc := true }

/-- A baseline options value: scalar data and embedded telemetry collected and
saved, the optional artifact kinds off, sampling period 1 s. -/
def oBase : RunOpts :=
  { collectData := true, collectSpatialTemp := false, collectEntireSpectra := false
    collectOscMeas := false, collectEmbedded := true
    saveData := true, saveSpatialTemp := false, saveSpectra := false
    saveOscMeas := false, saveEmbMeas := true, saveEntireImage := false
    tSampling := 1 }

/-- Baseline per-tick device values; the tick takes half the sampling period. -/
def inpBase : TickInputs :=
  { thermal := { Ts_max := 30, Ts2 := 31, Ts3 := 32, img := { data := 7, img := 8 } }
    specRaw := { intensities := [1, 2], wavelengths := [500, 600] }
    osc := { timebase := [0, 1], channels := [[5, 6]] }
    emb := [100, 0, 1, 2, 3, 4, 5, 6, 7, 8, 9, 10, 11, 12]
    elapsed := 1/2 }

/-- Every tick sees the baseline inputs. -/
def ticksBase : Nat → TickInputs := fun _ => inpBase

/-- Options with `saveData` off (and embedded saving off so the loop body has
no other containers to touch). -/
def oNoSave : RunOpts := { oBase with saveData := false, saveEmbMeas := false }

/-- Options with scalar saving on but embedded saving off. -/
def oScalarOnly : RunOpts := { oBase with saveEmbMeas := false }

/-- Image-saving options: only the frame store writes. -/
def oImgRun : RunOpts :=
  { oBase with saveData := false, saveEmbMeas := false, saveEntireImage := true }

/-- A loop state with only the overrun list allocated. -/
def stBadTimesOnly : LoopState := { initialLoopState 0 with badTimes := some [] }

/-- A loop state with the scalar containers of a 1-iteration run. -/
def stScalar1 : LoopState :=
  { initialLoopState 0 with Tsave := some [0], Isave := some [0], badTimes := some [] }

/-- A tick whose sampling-plus-actuation time (2 s) exceeds the period. -/
def inpOverrun : TickInputs := { inpBase with elapsed := 2 }

/-- Options for the sentinel tick: nothing collected from camera or
spectrometer, scalar and spatial saving on. -/
def oSentinel : RunOpts :=
  { oBase with collectData := false, saveSpatialTemp := true, saveEmbMeas := false }

/-- Scalar and spatial containers of a 1-iteration run. -/
def stSentinel : LoopState :=
  { initialLoopState 0 with Tsave := some [0], Isave := some [0], badTimes := some []
                            Ts2save := some [0], Ts3save := some [0] }

/-- An empty run record (used as a fallback when extracting a computed one). -/
def emptyExpData : ExpData :=
  { Niter := 0, Tsave := [], Isave := [], Psave := [], qSave := [], badTimes := []
    Ts2save := none, Ts3save := none, raw_img_files := none, mmapN := none
    waveSave := none, specSave := none, meanShiftSave := none
    oscSave := none, ArdSave := none }

/-- Extract the record of a successful `runToRecord`, with a fallback. -/
def recOrDefault (x : Except String (RunOpts × ExpData × LoopState)) :
    RunOpts × ExpData × LoopState :=
  match x with
  | Except.ok r => r
  | Except.error _ => (oBase, emptyExpData, initialLoopState 0)

/-- A record carrying only an oscilloscope archive of `k` single-row channel
matrices (channel `c` holds the row `[c]`). -/
def dOsc (k : Nat) : ExpData :=
  { emptyExpData with oscSave := some ((List.range k).map (fun c => [[(c : ℚ)]])) }

/-- Options enabling only the oscilloscope archive. -/
def oOscOnly : RunOpts :=
  { oBase with saveData := false, saveEmbMeas := false, saveOscMeas := true }

/-- A record of a 450-iteration image run: 3 batch files of 200 frames. -/
def dImg450 : ExpData :=
  { emptyExpData with Niter := 450, raw_img_files := some 3, mmapN := some 200 }

/-- Options enabling only the per-frame image artifacts. -/
def oImgOnly : RunOpts :=
  { oBase with saveData := false, saveEmbMeas := false, saveEntireImage := true }

/-- A record where the combined table succeeds, the oscilloscope archive
raises (4 channels), and an embedded table is available to write. -/
def dAbort : ExpData := { dOsc 4 with ArdSave := some [[1]] }

/-- Options with the combined table, oscilloscope archive and embedded table
all enabled. -/
def oAbort : RunOpts := { oBase with saveOscMeas := true }

/-- Options of a run that never collects embedded telemetry. -/
def oNoEmb : RunOpts := { oBase with collectEmbedded := false, saveEmbMeas := false }

/-- A scheduler order: the embedded task finishes first, the thermal task
last. -/
def permRev : Equiv.Perm (Fin 4) := Equiv.swap 0 3

/-- A read stream: one transport failure, one checksum-invalid line, then a
valid full line. -/
def embStream : List ReadEvt :=
  [ReadEvt.fail, ReadEvt.line { valid := false, fields := [9] },
   ReadEvt.line { valid := true, fields := [100, 1, 2, 3, 4, 5, 6, 7, 8, 9, 10, 11, 12, 13, 14] }]

/-- The tick indices in `[0, k)` whose measured elapsed time met or exceeded
the sampling period (`pauseTime <= 0`). -/
def overrunList (o : RunOpts) (ticks : Nat → TickInputs) (k : Nat) : List Nat :=
  (List.range k).filter (fun i => decide (o.tSampling - (ticks i).elapsed ≤ 0))

/-- Extract the state of a successful loop computation, with a fallback. -/
def stOrDefault (x : Except String LoopState) : LoopState :=
  match x with
  | Except.ok s => s
  | Except.error _ => initialLoopState 0

/-- Extract the result of a successful setup, with a fallback. -/
def pairOrDefault (x : Except String (RunOpts × LoopState)) : RunOpts × LoopState :=
  match x with
  | Except.ok r => r
  | Except.error _ => (oBase, initialLoopState 0)

/-- Extract the result of a successful full run, with a fallback. -/
def resOrDefault (x : Except String (ExpData × List Artifact × LoopState)) :
    ExpData × List Artifact × LoopState :=
  match x with
  | Except.ok r => r
  | Except.error _ => (emptyExpData, [], initialLoopState 0)

/-- Options with every collect flag and every allocatable save flag
enabled (image saving stays off: with it on, the `raw_img0.shape`
AttributeError aborts the container block before the auto-disable
branches). -/
def oAllOn : RunOpts :=
  { collectData := true, collectSpatialTemp := true, collectEntireSpectra := true
    collectOscMeas := true, collectEmbedded := true
    saveData := true, saveSpatialTemp := true, saveSpectra := true
    saveOscMeas := true, saveEmbMeas := true, saveEntireImage := false
    tSampling := 1 }

/-! ## Lemmas: the embedding monad and array writes -/

theorem except_bind_ok {α β : Type} {x : Except String α} {f : α → Except String β} {b : β} :
    x >>= f = Except.ok b ↔ ∃ a, x = Except.ok a ∧ f a = Except.ok b := by
  cases x with
  | ok a => simp [Bind.bind, Except.bind]
  | error e => simp [Bind.bind, Except.bind]

theorem require_ok {α : Type} {x : Option α} {msg : String} {a : α} :
    require x msg = Except.ok a ↔ x = some a := by
  cases x <;> simp [require]

theorem npSet_ok {a : List ℚ} {i : Nat} {v : ℚ} {a' : List ℚ} :
    npSet a i v = Except.ok a' ↔ i < a.length ∧ a' = a.set i v := by
  unfold npSet
  by_cases h : i < a.length <;> simp [h, eq_comm]

/-! ## Lemmas: characterizing each loop-body stage on success -/

theorem tickSaveScalar_ok {o : RunOpts} {i : Nat} {Ts tI : ℚ} {st st' : LoopState}
    (h : tickSaveScalar o i Ts tI st = Except.ok st') :
    (o.saveData = false ∧ st' = st) ∨
    (o.saveData = true ∧ ∃ T I, st.Tsave = some T ∧ st.Isave = some I ∧
      i < T.length ∧ i < I.length ∧
      st' = { st with Tsave := some (T.set i Ts), Isave := some (I.set i tI) }) := by
  unfold tickSaveScalar at h
  by_cases hs : o.saveData
  · right
    refine ⟨hs, ?_⟩
    rw [if_pos hs] at h
    obtain ⟨T, hT, h⟩ := except_bind_ok.mp h
    obtain ⟨T', hT', h⟩ := except_bind_ok.mp h
    obtain ⟨I, hI, h⟩ := except_bind_ok.mp h
    obtain ⟨I', hI', h⟩ := except_bind_ok.mp h
    rw [require_ok] at hT hI
    obtain ⟨hiT, rfl⟩ := npSet_ok.mp hT'
    obtain ⟨hiI, rfl⟩ := npSet_ok.mp hI'
    cases h
    exact ⟨T, I, hT, hI, hiT, hiI, rfl⟩
  · left
    rw [if_neg hs] at h
    cases h
    exact ⟨Bool.not_eq_true _ ▸ by simpa using hs, rfl⟩

theorem tickSpatial_ok {o : RunOpts} {i : Nat} {Ts2 Ts3 : ℚ} {st st' : LoopState}
    (h : tickSpatial o i Ts2 Ts3 st = Except.ok st') :
    (o.saveSpatialTemp = false ∧ st' = st) ∨
    (o.saveSpatialTemp = true ∧ ∃ a b, st.Ts2save = some a ∧ st.Ts3save = some b ∧
      i < a.length ∧ i < b.length ∧
      st' = { st with Ts2save := some (a.set i Ts2), Ts3save := some (b.set i Ts3) }) := by
  unfold tickSpatial at h
  by_cases hs : o.saveSpatialTemp
  · right
    refine ⟨hs, ?_⟩
    rw [if_pos hs] at h
    obtain ⟨a, ha, h⟩ := except_bind_ok.mp h
    obtain ⟨a', ha', h⟩ := except_bind_ok.mp h
    obtain ⟨b, hb, h⟩ := except_bind_ok.mp h
    obtain ⟨b', hb', h⟩ := except_bind_ok.mp h
    rw [require_ok] at ha hb
    obtain ⟨hia, rfl⟩ := npSet_ok.mp ha'
    obtain ⟨hib, rfl⟩ := npSet_ok.mp hb'
    cases h
    exact ⟨a, b, ha, hb, hia, hib, rfl⟩
  · left
    rw [if_neg hs] at h
    cases h
    exact ⟨by simpa using hs, rfl⟩

theorem tickTiming_ok {o : RunOpts} {i : Nat} {elapsed : ℚ} {st st' : LoopState}
    (h : tickTiming o i elapsed st = Except.ok st') :
    (o.tSampling - elapsed > 0 ∧
      st' = { st with sleeps := st.sleeps ++ [(i, o.tSampling - elapsed)] }) ∨
    (¬ (o.tSampling - elapsed > 0) ∧ o.saveData = true ∧
      ∃ bt, st.badTimes = some bt ∧ st' = { st with badTimes := some (bt ++ [i]) }) ∨
    (¬ (o.tSampling - elapsed > 0) ∧ o.saveData = false ∧ st' = st) := by
  unfold tickTiming at h
  by_cases hp : o.tSampling - elapsed > 0
  · left
    rw [if_pos hp] at h
    cases h
    exact ⟨hp, rfl⟩
  · rw [if_neg hp] at h
    by_cases hs : o.saveData
    · right; left
      rw [if_pos hs] at h
      obtain ⟨bt, hbt, h⟩ := except_bind_ok.mp h
      rw [require_ok] at hbt
      cases h
      exact ⟨hp, hs, bt, hbt, rfl⟩
    · right; right
      rw [if_neg hs] at h
      cases h
      exact ⟨hp, by simpa using hs, rfl⟩

theorem tickImage_ok {o : RunOpts} {i : Nat} {st st' : LoopState}
    (h : tickImage o i st = Except.ok st') :
    o.saveEntireImage = false ∧ st' = st := by
  unfold tickImage at h
  by_cases hs : o.saveEntireImage
  · rw [if_pos hs] at h
    obtain ⟨mid, hmid, h⟩ := except_bind_ok.mp h
    unfold tickImageWrite at h
    obtain ⟨img, himg, h⟩ := except_bind_ok.mp h
    cases h
  · rw [if_neg hs] at h
    cases h
    exact ⟨by simpa using hs, rfl⟩
theorem tickSpectraSave_ok {o : RunOpts} {i : Nat} {iSpec wl : PyVal} {mS : ℚ}
    {st st' : LoopState} (h : tickSpectraSave o i iSpec wl mS st = Except.ok st') :
    (o.saveSpectra = false ∧ st' = st) ∨
    (o.saveSpectra = true ∧ ∃ w m ms,
      st' = { st with waveSave := w, specSave := some m, meanShiftSave := some ms }) := by
  unfold tickSpectraSave at h
  by_cases hs : o.saveSpectra
  · right
    refine ⟨hs, ?_⟩
    rw [if_pos hs] at h
    by_cases hz : i = 0 <;> [rw [if_pos hz] at h; rw [if_neg hz] at h]
    · obtain ⟨m, hm, h⟩ := except_bind_ok.mp h
      obtain ⟨m', hm', h⟩ := except_bind_ok.mp h
      obtain ⟨ms, hms, h⟩ := except_bind_ok.mp h
      obtain ⟨ms', hms', h⟩ := except_bind_ok.mp h
      cases h
      exact ⟨some (ravelVal wl), m', ms', rfl⟩
    · obtain ⟨m, hm, h⟩ := except_bind_ok.mp h
      obtain ⟨m', hm', h⟩ := except_bind_ok.mp h
      obtain ⟨ms, hms, h⟩ := except_bind_ok.mp h
      obtain ⟨ms', hms', h⟩ := except_bind_ok.mp h
      cases h
      exact ⟨st.waveSave, m', ms', rfl⟩
  · left
    rw [if_neg hs] at h
    cases h
    exact ⟨by simpa using hs, rfl⟩

theorem tickOsc_ok {o : RunOpts} {i : Nat} {oscOut : Option OscReading}
    {st st' : LoopState} (h : tickOsc o i oscOut st = Except.ok st') :
    (o.saveOscMeas = false ∧ st' = st) ∨
    (o.saveOscMeas = true ∧ ∃ x, st' = { st with oscSave := some x }) := by
  unfold tickOsc at h
  by_cases hs : o.saveOscMeas
  · right
    refine ⟨hs, ?_⟩
    rw [if_pos hs] at h
    obtain ⟨w, hw, h⟩ := except_bind_ok.mp h
    obtain ⟨nch, hnch, h⟩ := except_bind_ok.mp h
    obtain ⟨ms, hms, h⟩ := except_bind_ok.mp h
    obtain ⟨ms', hms', h⟩ := except_bind_ok.mp h
    cases h
    exact ⟨ms', rfl⟩
  · left
    rw [if_neg hs] at h
    cases h
    exact ⟨by simpa using hs, rfl⟩

theorem tickEmb_ok {o : RunOpts} {i : Nat} {arduinoOut : Option (List ℚ)}
    {st st' : LoopState} (h : tickEmb o i arduinoOut st = Except.ok st') :
    ∃ v t, arduinoOut = some v ∧ v.head? = some t ∧
      ((o.saveEmbMeas = false ∧ st' = { st with prevTime := t }) ∨
        (o.saveEmbMeas = true ∧ ∃ m m', st.ArdSave = some m ∧
          st' = { st with prevTime := t, ArdSave := some m' })) := by
  unfold tickEmb at h
  obtain ⟨v, hv, h⟩ := except_bind_ok.mp h
  obtain ⟨t, ht, h⟩ := except_bind_ok.mp h
  rw [require_ok] at hv ht
  refine ⟨v, t, hv, ht, ?_⟩
  by_cases hs : o.saveEmbMeas
  · right
    refine ⟨hs, ?_⟩
    rw [if_pos hs] at h
    obtain ⟨m, hm, h⟩ := except_bind_ok.mp h
    obtain ⟨m', hm', h⟩ := except_bind_ok.mp h
    rw [require_ok] at hm
    cases h
    exact ⟨m, m', hm, rfl⟩
  · left
    rw [if_neg hs] at h
    cases h
    exact ⟨by simpa using hs, rfl⟩

/-- Decomposition of one successful loop iteration into its stages. -/
theorem loopBody_ok {o : RunOpts} {devs : Devices} {ps fs : List ℚ} {i : Nat}
    {inp : TickInputs} {st st' : LoopState}
    (h : loopBody o devs ps fs i inp st = Except.ok st') :
    ∃ s1 s2 s3 s4 s5 s6 P q,
      tickSaveScalar o i (unpackThermal (async_measure devs o inp).thermal).1.1
        (unpackSpectral (async_measure devs o inp).spectral).1
        (applyImgUpd st (unpackThermal (async_measure devs o inp).thermal).2) =
          Except.ok s1 ∧
      tickSpatial o i (unpackThermal (async_measure devs o inp).thermal).1.2.1
        (unpackThermal (async_measure devs o inp).thermal).1.2.2 s1 = Except.ok s2 ∧
      tickImage o i s2 = Except.ok s3 ∧
      tickSpectraSave o i (unpackSpectral (async_measure devs o inp).spectral).2.1
        (unpackSpectral (async_measure devs o inp).spectral).2.2.1
        (unpackSpectral (async_measure devs o inp).spectral).2.2.2 s3 = Except.ok s4 ∧
      tickOsc o i (async_measure devs o inp).osc s4 = Except.ok s5 ∧
      tickEmb o i (async_measure devs o inp).emb s5 = Except.ok s6 ∧
      ps.get? i = some P ∧ fs.get? i = some q ∧
      tickTiming o i inp.elapsed s6 = Except.ok st' := by
  simp only [loopBody] at h
  obtain ⟨s1, h1, h⟩ := except_bind_ok.mp h
  obtain ⟨s2, h2, h⟩ := except_bind_ok.mp h
  obtain ⟨s3, h3, h⟩ := except_bind_ok.mp h
  obtain ⟨s4, h4, h⟩ := except_bind_ok.mp h
  obtain ⟨s5, h5, h⟩ := except_bind_ok.mp h
  obtain ⟨s6, h6, h⟩ := except_bind_ok.mp h
  obtain ⟨P, hP, h⟩ := except_bind_ok.mp h
  obtain ⟨q, hq, h⟩ := except_bind_ok.mp h
  rw [require_ok] at hP hq
  exact ⟨s1, s2, s3, s4, s5, s6, P, q, h1, h2, h3, h4, h5, h6, hP, hq, h⟩

/-! ## Lemmas: characterizing the pre-loop setup -/

theorem setupImage_ok {o : RunOpts} {Niter : Nat} {th : Option ThermalReading}
    {st st' : LoopState} (h : setupImage o Niter th st = Except.ok st') :
    o.saveEntireImage = false ∧ st' = st := by
  unfold setupImage at h
  by_cases hs : o.saveEntireImage
  · rw [if_pos hs] at h
    obtain ⟨t, ht, h⟩ := except_bind_ok.mp h
    cases h
  · rw [if_neg hs] at h
    cases h
    exact ⟨by simpa using hs, rfl⟩

theorem setupSpectra_ok {o : RunOpts} {Niter : Nat} {sp : Option SpecResult}
    {st : LoopState} {out : RunOpts × LoopState}
    (h : setupSpectra o Niter sp st = Except.ok out) :
    (o.saveSpectra = false ∧ out = (o, st)) ∨
    (o.saveSpectra = true ∧
      ((∃ s wl, sp = some s ∧ s.wavelengths = some wl ∧
        out = (o, { st with
          waveSave := some (List.replicate wl.length 0)
          specSave := some (List.replicate Niter (List.replicate wl.length 0))
          meanShiftSave := some (List.replicate Niter 0) })) ∨
      (sp = none ∧ out = ({ o with saveSpectra := false }, st)))) := by
  unfold setupSpectra at h
  by_cases hs : o.saveSpectra
  · right
    refine ⟨hs, ?_⟩
    rw [if_pos hs] at h
    cases sp with
    | some s =>
      left
      obtain ⟨wl, hwl, h⟩ := except_bind_ok.mp h
      rw [require_ok] at hwl
      cases h
      exact ⟨s, wl, rfl, hwl, rfl⟩
    | none =>
      right
      cases h
      exact ⟨rfl, rfl⟩
  · left
    rw [if_neg hs] at h
    cases h
    exact ⟨by simpa using hs, rfl⟩

theorem setupOsc_eq {o : RunOpts} {Niter : Nat} {os : Option OscReading} {st : LoopState} :
    setupOsc o Niter os st =
      if o.saveOscMeas then
        match os with
        | some w =>
          (o, { st with n_channels := some w.channels.length
                        oscSave := some (List.replicate w.channels.length
                          (List.replicate (Niter + 1) (List.replicate w.timebase.length 0))) })
        | none => ({ o with saveOscMeas := false }, st)
      else (o, st) := rfl

theorem setupEmb_eq {o : RunOpts} {Niter : Nat} {em : Option (List ℚ)} {st : LoopState} :
    setupEmb o Niter em st =
      if o.saveEmbMeas then
        match em with
        | some v =>
          (o, { st with ArdSave := some (List.replicate Niter (List.replicate v.length 0)) })
        | none => ({ o with saveEmbMeas := false }, st)
      else (o, st) := rfl

theorem setupOsc_props (o : RunOpts) (Niter : Nat) (os : Option OscReading)
    (st : LoopState) :
    (setupOsc o Niter os st).2.Tsave = st.Tsave ∧
    (setupOsc o Niter os st).2.Isave = st.Isave ∧
    (setupOsc o Niter os st).2.badTimes = st.badTimes ∧
    (setupOsc o Niter os st).2.Ts2save = st.Ts2save ∧
    (setupOsc o Niter os st).2.Ts3save = st.Ts3save ∧
    (setupOsc o Niter os st).2.raw_img_files = st.raw_img_files ∧
    (setupOsc o Niter os st).2.frameEvents = st.frameEvents ∧
    (setupOsc o Niter os st).2.curFile = st.curFile ∧
    (setupOsc o Niter os st).2.sleeps = st.sleeps ∧
    (setupOsc o Niter os st).1.collectData = o.collectData ∧
    (setupOsc o Niter os st).1.collectSpatialTemp = o.collectSpatialTemp ∧
    (setupOsc o Niter os st).1.collectEntireSpectra = o.collectEntireSpectra ∧
    (setupOsc o Niter os st).1.collectOscMeas = o.collectOscMeas ∧
    (setupOsc o Niter os st).1.collectEmbedded = o.collectEmbedded ∧
    (setupOsc o Niter os st).1.saveData = o.saveData ∧
    (setupOsc o Niter os st).1.saveSpatialTemp = o.saveSpatialTemp ∧
    (setupOsc o Niter os st).1.saveSpectra = o.saveSpectra ∧
    (setupOsc o Niter os st).1.saveEmbMeas = o.saveEmbMeas ∧
    (setupOsc o Niter os st).1.saveEntireImage = o.saveEntireImage ∧
    (setupOsc o Niter os st).1.tSampling = o.tSampling ∧
    (os = none → (setupOsc o Niter os st).1.saveOscMeas = false) := by
  unfold setupOsc
  by_cases hs : o.saveOscMeas <;> cases os <;> simp [hs]

theorem setupEmb_props (o : RunOpts) (Niter : Nat) (em : Option (List ℚ))
    (st : LoopState) :
    (setupEmb o Niter em st).2.Tsave = st.Tsave ∧
    (setupEmb o Niter em st).2.Isave = st.Isave ∧
    (setupEmb o Niter em st).2.badTimes = st.badTimes ∧
    (setupEmb o Niter em st).2.Ts2save = st.Ts2save ∧
    (setupEmb o Niter em st).2.Ts3save = st.Ts3save ∧
    (setupEmb o Niter em st).2.raw_img_files = st.raw_img_files ∧
    (setupEmb o Niter em st).2.frameEvents = st.frameEvents ∧
    (setupEmb o Niter em st).2.curFile = st.curFile ∧
    (setupEmb o Niter em st).2.sleeps = st.sleeps ∧
    (setupEmb o Niter em st).1.collectData = o.collectData ∧
    (setupEmb o Niter em st).1.collectSpatialTemp = o.collectSpatialTemp ∧
    (setupEmb o Niter em st).1.collectEntireSpectra = o.collectEntireSpectra ∧
    (setupEmb o Niter em st).1.collectOscMeas = o.collectOscMeas ∧
    (setupEmb o Niter em st).1.collectEmbedded = o.collectEmbedded ∧
    (setupEmb o Niter em st).1.saveData = o.saveData ∧
    (setupEmb o Niter em st).1.saveSpatialTemp = o.saveSpatialTemp ∧
    (setupEmb o Niter em st).1.saveSpectra = o.saveSpectra ∧
    (setupEmb o Niter em st).1.saveOscMeas = o.saveOscMeas ∧
    (setupEmb o Niter em st).1.saveEntireImage = o.saveEntireImage ∧
    (setupEmb o Niter em st).1.tSampling = o.tSampling ∧
    (em = none → (setupEmb o Niter em st).1.saveEmbMeas = false) := by
  unfold setupEmb
  by_cases hs : o.saveEmbMeas <;> cases em <;> simp [hs]

theorem setupSaveData_props (o : RunOpts) (Niter : Nat) (st : LoopState) :
    (setupSaveData o Niter st).Tsave =
      (if o.saveData then some (List.replicate Niter 0) else st.Tsave) ∧
    (setupSaveData o Niter st).Isave =
      (if o.saveData then some (List.replicate Niter 0) else st.Isave) ∧
    (setupSaveData o Niter st).badTimes = (if o.saveData then some [] else st.badTimes) ∧
    (setupSaveData o Niter st).Ts2save = st.Ts2save ∧
    (setupSaveData o Niter st).Ts3save = st.Ts3save ∧
    (setupSaveData o Niter st).raw_img_files = st.raw_img_files ∧
    (setupSaveData o Niter st).frameEvents = st.frameEvents ∧
    (setupSaveData o Niter st).curFile = st.curFile ∧
    (setupSaveData o Niter st).sleeps = st.sleeps := by
  unfold setupSaveData
  by_cases hs : o.saveData <;> simp [hs]

theorem setupSpatial_props (o : RunOpts) (Niter : Nat) (st : LoopState) :
    (setupSpatial o Niter st).Tsave = st.Tsave ∧
    (setupSpatial o Niter st).Isave = st.Isave ∧
    (setupSpatial o Niter st).badTimes = st.badTimes ∧
    (setupSpatial o Niter st).Ts2save =
      (if o.saveSpatialTemp then some (List.replicate Niter 0) else st.Ts2save) ∧
    (setupSpatial o Niter st).Ts3save =
      (if o.saveSpatialTemp then some (List.replicate Niter 0) else st.Ts3save) ∧
    (setupSpatial o Niter st).raw_img_files = st.raw_img_files ∧
    (setupSpatial o Niter st).frameEvents = st.frameEvents ∧
    (setupSpatial o Niter st).curFile = st.curFile ∧
    (setupSpatial o Niter st).sleeps = st.sleeps := by
  unfold setupSpatial
  by_cases hs : o.saveSpatialTemp <;> simp [hs]

theorem setupImage_fields {o : RunOpts} {Niter : Nat} {th : Option ThermalReading}
    {st st' : LoopState} (h : setupImage o Niter th st = Except.ok st') :
    st'.Tsave = st.Tsave ∧ st'.Isave = st.Isave ∧ st'.badTimes = st.badTimes ∧
    st'.Ts2save = st.Ts2save ∧ st'.Ts3save = st.Ts3save ∧
    st'.frameEvents = st.frameEvents ∧ st'.sleeps = st.sleeps ∧
    st'.raw_img_files = st.raw_img_files ∧
    st'.curFile = st.curFile := by
  obtain ⟨_, rfl⟩ := setupImage_ok h
  simp

theorem setupSpectra_fields {o : RunOpts} {Niter : Nat} {sp : Option SpecResult}
    {st : LoopState} {out : RunOpts × LoopState}
    (h : setupSpectra o Niter sp st = Except.ok out) :
    out.2.Tsave = st.Tsave ∧ out.2.Isave = st.Isave ∧ out.2.badTimes = st.badTimes ∧
    out.2.Ts2save = st.Ts2save ∧ out.2.Ts3save = st.Ts3save ∧
    out.2.raw_img_files = st.raw_img_files ∧ out.2.frameEvents = st.frameEvents ∧
    out.2.curFile = st.curFile ∧ out.2.sleeps = st.sleeps ∧
    out.1.collectData = o.collectData ∧ out.1.collectSpatialTemp = o.collectSpatialTemp ∧
    out.1.collectEntireSpectra = o.collectEntireSpectra ∧
    out.1.collectOscMeas = o.collectOscMeas ∧ out.1.collectEmbedded = o.collectEmbedded ∧
    out.1.saveData = o.saveData ∧ out.1.saveSpatialTemp = o.saveSpatialTemp ∧
    out.1.saveOscMeas = o.saveOscMeas ∧ out.1.saveEmbMeas = o.saveEmbMeas ∧
    out.1.saveEntireImage = o.saveEntireImage ∧ out.1.tSampling = o.tSampling ∧
    (sp = none → out.1.saveSpectra = false) := by
  rcases setupSpectra_ok h with ⟨hS, rfl⟩ | ⟨hS, ⟨s, wl, hsp, hwl, rfl⟩ | ⟨hsp, rfl⟩⟩ <;>
    simp_all

theorem setupContainers_props {o : RunOpts} {Niter : Nat} {th : Option ThermalReading}
    {sp : Option SpecResult} {os : Option OscReading} {em : Option (List ℚ)} {pt : ℚ}
    {o' : RunOpts} {st' : LoopState}
    (h : setupContainers o Niter th sp os em pt = Except.ok (o', st')) :
    st'.Tsave = (if o.saveData then some (List.replicate Niter 0) else none) ∧
    st'.Isave = (if o.saveData then some (List.replicate Niter 0) else none) ∧
    st'.badTimes = (if o.saveData then some [] else none) ∧
    st'.Ts2save = (if o.saveSpatialTemp then some (List.replicate Niter 0) else none) ∧
    st'.Ts3save = (if o.saveSpatialTemp then some (List.replicate Niter 0) else none) ∧
    st'.raw_img_files = none ∧
    st'.frameEvents = [] ∧ st'.curFile = none ∧ st'.sleeps = [] ∧
    o'.collectData = o.collectData ∧ o'.collectSpatialTemp = o.collectSpatialTemp ∧
    o'.collectEntireSpectra = o.collectEntireSpectra ∧
    o'.collectOscMeas = o.collectOscMeas ∧ o'.collectEmbedded = o.collectEmbedded ∧
    o'.saveData = o.saveData ∧ o'.saveSpatialTemp = o.saveSpatialTemp ∧
    o'.saveEntireImage = o.saveEntireImage ∧ o'.tSampling = o.tSampling ∧
    (sp = none → o'.saveSpectra = false) ∧
    (os = none → o'.saveOscMeas = false) ∧
    (em = none → o'.saveEmbMeas = false) ∧
    o.saveEntireImage = false := by
  simp only [setupContainers] at h
  obtain ⟨st3, h3, h⟩ := except_bind_ok.mp h
  obtain ⟨r4, h4, h⟩ := except_bind_ok.mp h
  rw [Except.ok.injEq] at h
  obtain ⟨i1, i2, i3, i4, i5, i6, i7, i8, i9⟩ := setupImage_fields h3
  obtain ⟨s1, s2, s3, s4, s5, s6, s7, s8, s9, t1, t2, t3, t4, t5, t6, t7, t8, t9, t10,
    t11, t12⟩ := setupSpectra_fields h4
  obtain ⟨e1, e2, e3, e4, e5, e6, e7, e8, e9, f1, f2, f3, f4, f5, f6, f7, f8, f9, f10,
    f11, f12⟩ := setupEmb_props (setupOsc r4.1 Niter os r4.2).1 Niter em
      (setupOsc r4.1 Niter os r4.2).2
  obtain ⟨g1, g2, g3, g4, g5, g6, g7, g8, g9, k1, k2, k3, k4, k5, k6, k7, k8, k9, k10,
    k11, k12⟩ := setupOsc_props r4.1 Niter os r4.2
  obtain ⟨w1, w2, w3, w4, w5, w6, w7, w8, w9⟩ :=
    setupSaveData_props o Niter (initialLoopState pt)
  obtain ⟨x1, x2, x3, x4, x5, x6, x7, x8, x9⟩ :=
    setupSpatial_props o Niter (setupSaveData o Niter (initialLoopState pt))
  have ho' : o' = (setupEmb (setupOsc r4.1 Niter os r4.2).1 Niter em
      (setupOsc r4.1 Niter os r4.2).2).1 := by rw [h]
  have hstf : st' = (setupEmb (setupOsc r4.1 Niter os r4.2).1 Niter em
      (setupOsc r4.1 Niter os r4.2).2).2 := by rw [h]
  subst ho' hstf
  refine ⟨?_, ?_, ?_, ?_, ?_, ?_, ?_, ?_, ?_, ?_, ?_, ?_, ?_, ?_, ?_, ?_, ?_, ?_,
    ?_, ?_, ?_, ?_⟩
  · rw [e1, g1, s1, i1, x1, w1]; simp [initialLoopState]
  · rw [e2, g2, s2, i2, x2, w2]; simp [initialLoopState]
  · rw [e3, g3, s3, i3, x3, w3]; simp [initialLoopState]
  · rw [e4, g4, s4, i4, x4, w4]; simp [initialLoopState]
  · rw [e5, g5, s5, i5, x5, w5]; simp [initialLoopState]
  · rw [e6, g6, s6, i8, x6, w6]; simp [initialLoopState]
  · rw [e7, g7, s7, i6, x7, w7]; simp [initialLoopState]
  · rw [e8, g8, s8, i9, x8, w8]; simp [initialLoopState]
  · rw [e9, g9, s9, i7, x9, w9]; simp [initialLoopState]
  · rw [f1, k1, t1]
  · rw [f2, k2, t2]
  · rw [f3, k3, t3]
  · rw [f4, k4, t4]
  · rw [f5, k5, t5]
  · rw [f6, k6, t6]
  · rw [f7, k7, t7]
  · rw [f10, k10, t10]
  · rw [f11, k11, t11]
  · intro hspn
    rw [f8, k8]
    exact t12 hspn
  · intro hosn
    rw [f9]
    exact k12 hosn
  · intro hemn
    exact f12 hemn
  · exact (setupImage_ok h3).1

/-! ## Lemmas: the record build and the run decomposition -/

theorem buildSpatialField_core {o : RunOpts} {st : LoopState} {d d' : ExpData}
    (h : buildSpatialField o st d = Except.ok d') :
    d'.Tsave = d.Tsave ∧ d'.Isave = d.Isave ∧ d'.badTimes = d.badTimes ∧
    d'.Niter = d.Niter ∧ d'.Psave = d.Psave ∧ d'.qSave = d.qSave := by
  unfold buildSpatialField at h
  by_cases hs : o.collectSpatialTemp
  · rw [if_pos hs] at h
    obtain ⟨a, ha, h⟩ := except_bind_ok.mp h
    obtain ⟨b, hb, h⟩ := except_bind_ok.mp h
    cases h; simp
  · rw [if_neg hs] at h
    cases h; simp

theorem buildImageField_core {o : RunOpts} {st : LoopState} {d d' : ExpData}
    (h : buildImageField o st d = Except.ok d') :
    d'.Tsave = d.Tsave ∧ d'.Isave = d.Isave ∧ d'.badTimes = d.badTimes ∧
    d'.Niter = d.Niter ∧ d'.Psave = d.Psave ∧ d'.qSave = d.qSave := by
  unfold buildImageField at h
  by_cases hs : o.saveEntireImage
  · rw [if_pos hs] at h
    obtain ⟨c, hc, h⟩ := except_bind_ok.mp h
    cases h; simp
  · rw [if_neg hs] at h
    cases h; simp

theorem buildSpectraField_core {o : RunOpts} {st : LoopState} {d d' : ExpData}
    (h : buildSpectraField o st d = Except.ok d') :
    d'.Tsave = d.Tsave ∧ d'.Isave = d.Isave ∧ d'.badTimes = d.badTimes ∧
    d'.Niter = d.Niter ∧ d'.Psave = d.Psave ∧ d'.qSave = d.qSave := by
  unfold buildSpectraField at h
  by_cases hs : o.collectEntireSpectra
  · rw [if_pos hs] at h
    obtain ⟨w, hw, h⟩ := except_bind_ok.mp h
    obtain ⟨sv, hsv, h⟩ := except_bind_ok.mp h
    obtain ⟨m, hm, h⟩ := except_bind_ok.mp h
    cases h; simp
  · rw [if_neg hs] at h
    cases h; simp

theorem buildOscField_core {o : RunOpts} {st : LoopState} {d d' : ExpData}
    (h : buildOscField o st d = Except.ok d') :
    d'.Tsave = d.Tsave ∧ d'.Isave = d.Isave ∧ d'.badTimes = d.badTimes ∧
    d'.Niter = d.Niter ∧ d'.Psave = d.Psave ∧ d'.qSave = d.qSave := by
  unfold buildOscField at h
  by_cases hs : o.collectOscMeas
  · rw [if_pos hs] at h
    obtain ⟨os, hos, h⟩ := except_bind_ok.mp h
    cases h; simp
  · rw [if_neg hs] at h
    cases h; simp

theorem buildEmbField_core {o : RunOpts} {st : LoopState} {d d' : ExpData}
    (h : buildEmbField o st d = Except.ok d') :
    d'.Tsave = d.Tsave ∧ d'.Isave = d.Isave ∧ d'.badTimes = d.badTimes ∧
    d'.Niter = d.Niter ∧ d'.Psave = d.Psave ∧ d'.qSave = d.qSave := by
  unfold buildEmbField at h
  by_cases hs : o.collectEmbedded
  · rw [if_pos hs] at h
    obtain ⟨a, ha, h⟩ := except_bind_ok.mp h
    cases h; simp
  · rw [if_neg hs] at h
    cases h; simp

/-- On success, the record build copies the scalar arrays, the overrun list,
the iteration count and the full input sequences into `exp_data`. -/
theorem buildExpData_core {o : RunOpts} {ps fs : List ℚ} {Niter : Nat}
    {st : LoopState} {d : ExpData} (h : buildExpData o ps fs Niter st = Except.ok d) :
    st.Tsave = some d.Tsave ∧ st.Isave = some d.Isave ∧ st.badTimes = some d.badTimes ∧
    d.Niter = Niter ∧ d.Psave = ps ∧ d.qSave = fs := by
  simp only [buildExpData] at h
  obtain ⟨T, hT, h⟩ := except_bind_ok.mp h
  obtain ⟨I, hI, h⟩ := except_bind_ok.mp h
  obtain ⟨bt, hbt, h⟩ := except_bind_ok.mp h
  obtain ⟨d1, h1, h⟩ := except_bind_ok.mp h
  obtain ⟨d2, h2, h⟩ := except_bind_ok.mp h
  obtain ⟨d3, h3, h⟩ := except_bind_ok.mp h
  obtain ⟨d4, h4, h⟩ := except_bind_ok.mp h
  rw [require_ok] at hT hI hbt
  obtain ⟨a1, a2, a3, a4, a5, a6⟩ := buildSpatialField_core h1
  obtain ⟨b1, b2, b3, b4, b5, b6⟩ := buildImageField_core h2
  obtain ⟨c1, c2, c3, c4, c5, c6⟩ := buildSpectraField_core h3
  obtain ⟨e1, e2, e3, e4, e5, e6⟩ := buildOscField_core h4
  obtain ⟨f1, f2, f3, f4, f5, f6⟩ := buildEmbField_core h
  refine ⟨?_, ?_, ?_, ?_, ?_, ?_⟩
  · rw [hT, f1, e1, c1, b1, a1]
  · rw [hI, f2, e2, c2, b2, a2]
  · rw [hbt, f3, e3, c3, b3, a3]
  · rw [f4, e4, c4, b4, a4]
  · rw [f5, e5, c5, b5, a5]
  · rw [f6, e6, c6, b6, a6]

/-- A successful pre-loop setup requires the thermal and spectral subscripts
to succeed: `collectData` must be on and the spectrometer handle present. -/
theorem setupRun_ok {o : RunOpts} {devs : Devices} {Niter : Nat} {init : TickInputs}
    {pt : ℚ} {o' : RunOpts} {st0 : LoopState}
    (h : setupRun o devs Niter init pt = Except.ok (o', st0)) :
    o.collectData = true ∧ devs.spec = true ∧
    setupContainers o Niter (async_measure devs o init).thermal
      (async_measure devs o init).spectral (async_measure devs o init).osc
      (async_measure devs o init).emb pt = Except.ok (o', st0) := by
  simp only [setupRun] at h
  obtain ⟨t, ht, h⟩ := except_bind_ok.mp h
  obtain ⟨s, hs, h⟩ := except_bind_ok.mp h
  rw [require_ok] at ht hs
  have hcd : o.collectData = true := by
    by_contra hc
    rw [Bool.not_eq_true] at hc
    simp [async_measure, async_get_temp, hc] at ht
  have hsp : devs.spec = true := by
    by_contra hc
    rw [Bool.not_eq_true] at hc
    simp [async_measure, async_get_spectra, hc] at hs
  exact ⟨hcd, hsp, h⟩

/-- Decomposition of a successful `runToRecord` into its phases. -/
theorem runToRecord_ok {o : RunOpts} {devices : Option Devices} {ps fs : List ℚ}
    {init : TickInputs} {ticks : Nat → TickInputs} {pt : ℚ} {o' : RunOpts}
    {d : ExpData} {st : LoopState}
    (h : runToRecord o devices ps fs init ticks pt = Except.ok (o', d, st)) :
    ∃ devs st0 stL,
      devices = some devs ∧
      setupRun o devs (min ps.length fs.length) init pt = Except.ok (o', st0) ∧
      runLoop o' devs ps fs ticks st0 (min ps.length fs.length) = Except.ok stL ∧
      st = (if stL.curFile.isSome then
        { stL with frameEvents := stL.frameEvents ++ [FrameOp.release], curFile := none }
      else stL) ∧
      buildExpData o' ps fs (min ps.length fs.length) st = Except.ok d := by
  simp only [runToRecord] at h
  obtain ⟨devs, hdev, h⟩ := except_bind_ok.mp h
  obtain ⟨r2, h2, h⟩ := except_bind_ok.mp h
  obtain ⟨o2, st0⟩ := r2
  obtain ⟨stL, hL, h⟩ := except_bind_ok.mp h
  obtain ⟨dd, hdd, h⟩ := except_bind_ok.mp h
  rw [require_ok] at hdev
  have hN : (if ps.length > fs.length then fs.length
      else if fs.length > ps.length then ps.length else ps.length) =
      min ps.length fs.length := by
    split
    · omega
    · split <;> omega
  rw [hN] at h2 hL hdd
  rw [Except.ok.injEq, Prod.mk.injEq] at h
  obtain ⟨ho2, h⟩ := h
  rw [Prod.mk.injEq] at h
  obtain ⟨hdd2, hstF⟩ := h
  subst ho2
  subst hdd2
  subst hstF
  exact ⟨devs, st0, stL, hdev, h2, hL, rfl, hdd⟩

/-! ## Lemmas: field preservation across the loop-body stages -/

theorem applyImgUpd_fields (st : LoopState) (u : Option ImgData) :
    (applyImgUpd st u).Tsave = st.Tsave ∧ (applyImgUpd st u).Isave = st.Isave ∧
    (applyImgUpd st u).badTimes = st.badTimes ∧
    (applyImgUpd st u).Ts2save = st.Ts2save ∧ (applyImgUpd st u).Ts3save = st.Ts3save ∧
    (applyImgUpd st u).frameEvents = st.frameEvents ∧
    (applyImgUpd st u).curFile = st.curFile ∧
    (applyImgUpd st u).raw_img_files = st.raw_img_files ∧
    (applyImgUpd st u).sleeps = st.sleeps ∧
    (applyImgUpd st u).raw_img = (match u with | some f => some f | none => st.raw_img) := by
  cases u <;> simp [applyImgUpd]

theorem tickSaveScalar_fields {o : RunOpts} {i : Nat} {Ts tI : ℚ} {st st' : LoopState}
    (h : tickSaveScalar o i Ts tI st = Except.ok st') :
    optLen st'.Tsave = optLen st.Tsave ∧ optLen st'.Isave = optLen st.Isave ∧
    st'.badTimes = st.badTimes ∧ st'.Ts2save = st.Ts2save ∧ st'.Ts3save = st.Ts3save ∧
    st'.frameEvents = st.frameEvents ∧ st'.curFile = st.curFile ∧
    st'.raw_img_files = st.raw_img_files ∧ st'.raw_img = st.raw_img ∧
    st'.sleeps = st.sleeps := by
  rcases tickSaveScalar_ok h with ⟨_, rfl⟩ | ⟨_, T, I, hT, hI, _, _, rfl⟩
  · simp
  · simp [optLen, hT, hI]

theorem tickSpatial_fields {o : RunOpts} {i : Nat} {Ts2 Ts3 : ℚ} {st st' : LoopState}
    (h : tickSpatial o i Ts2 Ts3 st = Except.ok st') :
    st'.Tsave = st.Tsave ∧ st'.Isave = st.Isave ∧ st'.badTimes = st.badTimes ∧
    st'.frameEvents = st.frameEvents ∧ st'.curFile = st.curFile ∧
    st'.raw_img_files = st.raw_img_files ∧ st'.raw_img = st.raw_img ∧
    st'.sleeps = st.sleeps := by
  rcases tickSpatial_ok h with ⟨_, rfl⟩ | ⟨_, a, b, ha, hb, _, _, rfl⟩ <;> simp

theorem tickImage_fields {o : RunOpts} {i : Nat} {st st' : LoopState}
    (h : tickImage o i st = Except.ok st') :
    st'.Tsave = st.Tsave ∧ st'.Isave = st.Isave ∧ st'.badTimes = st.badTimes ∧
    st'.Ts2save = st.Ts2save ∧ st'.Ts3save = st.Ts3save ∧
    st'.raw_img_files = st.raw_img_files ∧ st'.raw_img = st.raw_img ∧
    st'.sleeps = st.sleeps := by
  obtain ⟨_, rfl⟩ := tickImage_ok h
  simp

theorem tickSpectraSave_fields {o : RunOpts} {i : Nat} {iSpec wl : PyVal} {mS : ℚ}
    {st st' : LoopState} (h : tickSpectraSave o i iSpec wl mS st = Except.ok st') :
    st'.Tsave = st.Tsave ∧ st'.Isave = st.Isave ∧ st'.badTimes = st.badTimes ∧
    st'.Ts2save = st.Ts2save ∧ st'.Ts3save = st.Ts3save ∧
    st'.frameEvents = st.frameEvents ∧ st'.curFile = st.curFile ∧
    st'.raw_img_files = st.raw_img_files ∧ st'.raw_img = st.raw_img ∧
    st'.sleeps = st.sleeps := by
  rcases tickSpectraSave_ok h with ⟨_, rfl⟩ | ⟨_, w, m, ms, rfl⟩ <;> simp

theorem tickOsc_fields {o : RunOpts} {i : Nat} {oscOut : Option OscReading}
    {st st' : LoopState} (h : tickOsc o i oscOut st = Except.ok st') :
    st'.Tsave = st.Tsave ∧ st'.Isave = st.Isave ∧ st'.badTimes = st.badTimes ∧
    st'.Ts2save = st.Ts2save ∧ st'.Ts3save = st.Ts3save ∧
    st'.frameEvents = st.frameEvents ∧ st'.curFile = st.curFile ∧
    st'.raw_img_files = st.raw_img_files ∧ st'.raw_img = st.raw_img ∧
    st'.sleeps = st.sleeps := by
  rcases tickOsc_ok h with ⟨_, rfl⟩ | ⟨_, x, rfl⟩ <;> simp

theorem tickEmb_fields {o : RunOpts} {i : Nat} {arduinoOut : Option (List ℚ)}
    {st st' : LoopState} (h : tickEmb o i arduinoOut st = Except.ok st') :
    st'.Tsave = st.Tsave ∧ st'.Isave = st.Isave ∧ st'.badTimes = st.badTimes ∧
    st'.Ts2save = st.Ts2save ∧ st'.Ts3save = st.Ts3save ∧
    st'.frameEvents = st.frameEvents ∧ st'.curFile = st.curFile ∧
    st'.raw_img_files = st.raw_img_files ∧ st'.raw_img = st.raw_img ∧
    st'.sleeps = st.sleeps := by
  obtain ⟨v, t, hv, ht, hc⟩ := tickEmb_ok h
  rcases hc with ⟨_, rfl⟩ | ⟨_, m, m', hm, rfl⟩ <;> simp

theorem tickTiming_fields {o : RunOpts} {i : Nat} {elapsed : ℚ} {st st' : LoopState}
    (h : tickTiming o i elapsed st = Except.ok st') :
    st'.Tsave = st.Tsave ∧ st'.Isave = st.Isave ∧
    st'.Ts2save = st.Ts2save ∧ st'.Ts3save = st.Ts3save ∧
    st'.frameEvents = st.frameEvents ∧ st'.curFile = st.curFile ∧
    st'.raw_img_files = st.raw_img_files ∧ st'.raw_img = st.raw_img := by
  rcases tickTiming_ok h with ⟨_, rfl⟩ | ⟨_, _, bt, hbt, rfl⟩ | ⟨_, _, rfl⟩ <;> simp

theorem loopBody_fields {o : RunOpts} {devs : Devices} {ps fs : List ℚ} {i : Nat}
    {inp : TickInputs} {st st' : LoopState}
    (h : loopBody o devs ps fs i inp st = Except.ok st') :
    optLen st'.Tsave = optLen st.Tsave ∧ optLen st'.Isave = optLen st.Isave ∧
    st'.raw_img_files = st.raw_img_files := by
  obtain ⟨s1, s2, s3, s4, s5, s6, P, q, h1, h2, h3, h4, h5, h6, hP, hq, h7⟩ := loopBody_ok h
  obtain ⟨a1, a2, a3, a4, a5, a6, a7, a8, a9, a10⟩ :=
    applyImgUpd_fields st (unpackThermal (async_measure devs o inp).thermal).2
  obtain ⟨b1, b2, b3, b4, b5, b6, b7, b8, b9, b10⟩ := tickSaveScalar_fields h1
  obtain ⟨c1, c2, c3, c4, c5, c6, c7, c8⟩ := tickSpatial_fields h2
  obtain ⟨d1, d2, d3, d4, d5, d6, d7, d8⟩ := tickImage_fields h3
  obtain ⟨e1, e2, e3, e4, e5, e6, e7, e8, e9, e10⟩ := tickSpectraSave_fields h4
  obtain ⟨f1, f2, f3, f4, f5, f6, f7, f8, f9, f10⟩ := tickOsc_fields h5
  obtain ⟨g1, g2, g3, g4, g5, g6, g7, g8, g9, g10⟩ := tickEmb_fields h6
  obtain ⟨k1, k2, k3, k4, k5, k6, k7, k8⟩ := tickTiming_fields h7
  refine ⟨?_, ?_, ?_⟩
  · rw [k1, g1, f1, e1, d1, c1]; rw [b1, a1]
  · rw [k2, g2, f2, e2, d2, c2]; rw [b2, a2]
  · rw [k7, g8, f8, e8, d6, c6, b8, a8]

theorem runLoop_fields {o : RunOpts} {devs : Devices} {ps fs : List ℚ}
    {ticks : Nat → TickInputs} {st0 : LoopState} :
    ∀ {k : Nat} {st : LoopState}, runLoop o devs ps fs ticks st0 k = Except.ok st →
      optLen st.Tsave = optLen st0.Tsave ∧ optLen st.Isave = optLen st0.Isave ∧
      st.raw_img_files = st0.raw_img_files := by
  intro k
  induction k with
  | zero =>
    intro st h
    simp only [runLoop, Except.ok.injEq] at h
    subst h
    exact ⟨rfl, rfl, rfl⟩
  | succ n ih =>
    intro st h
    simp only [runLoop] at h
    obtain ⟨mid, hmid, hb⟩ := except_bind_ok.mp h
    obtain ⟨e1, e2, e3⟩ := ih hmid
    obtain ⟨f1, f2, f3⟩ := loopBody_fields hb
    exact ⟨f1.trans e1, f2.trans e2, f3.trans e3⟩

/-- A run with at least one tick contains a successful first iteration. -/
theorem runLoop_first {o : RunOpts} {devs : Devices} {ps fs : List ℚ}
    {ticks : Nat → TickInputs} {st0 : LoopState} :
    ∀ {k : Nat} {st : LoopState}, runLoop o devs ps fs ticks st0 k = Except.ok st →
      0 < k → ∃ a b, loopBody o devs ps fs 0 (ticks 0) a = Except.ok b := by
  intro k
  induction k with
  | zero => intro st _ hk; omega
  | succ n ih =>
    intro st h _
    simp only [runLoop] at h
    obtain ⟨mid, hmid, hb⟩ := except_bind_ok.mp h
    by_cases hn : 0 < n
    · exact ih hmid hn
    · have hn0 : n = 0 := by omega
      subst hn0
      simp only [runLoop, Except.ok.injEq] at hmid
      subst hmid
      exact ⟨st0, st, hb⟩

theorem loopBody_badTimes {o : RunOpts} {devs : Devices} {ps fs : List ℚ} {i : Nat}
    {inp : TickInputs} {st st' : LoopState} {bt : List Nat}
    (hsave : o.saveData = true) (hbt : st.badTimes = some bt)
    (h : loopBody o devs ps fs i inp st = Except.ok st') :
    st'.badTimes =
      some (bt ++ if o.tSampling - inp.elapsed ≤ 0 then [i] else []) := by
  obtain ⟨s1, s2, s3, s4, s5, s6, P, q, h1, h2, h3, h4, h5, h6, hP, hq, h7⟩ := loopBody_ok h
  obtain ⟨a1, a2, a3, a4, a5, a6, a7, a8, a9, a10⟩ :=
    applyImgUpd_fields st (unpackThermal (async_measure devs o inp).thermal).2
  obtain ⟨b1, b2, b3, b4, b5, b6, b7, b8, b9, b10⟩ := tickSaveScalar_fields h1
  obtain ⟨c1, c2, c3, c4, c5, c6, c7, c8⟩ := tickSpatial_fields h2
  obtain ⟨d1, d2, d3, d4, d5, d6, d7, d8⟩ := tickImage_fields h3
  obtain ⟨e1, e2, e3, e4, e5, e6, e7, e8, e9, e10⟩ := tickSpectraSave_fields h4
  obtain ⟨f1, f2, f3, f4, f5, f6, f7, f8, f9, f10⟩ := tickOsc_fields h5
  obtain ⟨g1, g2, g3, g4, g5, g6, g7, g8, g9, g10⟩ := tickEmb_fields h6
  have h6bt : s6.badTimes = some bt := by rw [g3, f3, e3, d3, c3, b3, a3, hbt]
  rcases tickTiming_ok h7 with ⟨hpos, rfl⟩ | ⟨hneg, _, bt', hbt', rfl⟩ | ⟨hneg, hns, rfl⟩
  · have : ¬ (o.tSampling - inp.elapsed ≤ 0) := by exact not_le.mpr hpos
    simp [this, h6bt]
  · rw [h6bt] at hbt'
    injection hbt' with hbt'
    subst hbt'
    have : o.tSampling - inp.elapsed ≤ 0 := by exact not_lt.mp hneg
    simp [this]
  · rw [hns] at hsave; cases hsave

theorem runLoop_badTimes {o : RunOpts} {devs : Devices} {ps fs : List ℚ}
    {ticks : Nat → TickInputs} {st0 : LoopState} {bt0 : List Nat}
    (hsave : o.saveData = true) (hbt : st0.badTimes = some bt0) :
    ∀ {k : Nat} {st : LoopState}, runLoop o devs ps fs ticks st0 k = Except.ok st →
      st.badTimes = some (bt0 ++ overrunList o ticks k) := by
  intro k
  induction k with
  | zero =>
    intro st h
    simp only [runLoop, Except.ok.injEq] at h
    subst h
    simp [overrunList, hbt]
  | succ n ih =>
    intro st h
    simp only [runLoop] at h
    obtain ⟨mid, hmid, hb⟩ := except_bind_ok.mp h
    have hmbt := ih hmid
    have := loopBody_badTimes hsave hmbt hb
    rw [this]
    unfold overrunList
    rw [List.range_succ, List.filter_append]
    simp only [List.filter_cons, List.filter_nil]
    by_cases hc : o.tSampling - (ticks n).elapsed ≤ 0 <;> simp [hc]

theorem loopBody_scalar {o : RunOpts} {devs : Devices} {ps fs : List ℚ} {i : Nat}
    {inp : TickInputs} {st st' : LoopState}
    (hsave : o.saveData = true)
    (h : loopBody o devs ps fs i inp st = Except.ok st') :
    ∃ T I, st.Tsave = some T ∧ st.Isave = some I ∧
      st'.Tsave = some (T.set i (unpackThermal (async_measure devs o inp).thermal).1.1) ∧
      st'.Isave = some (I.set i (unpackSpectral (async_measure devs o inp).spectral).1) := by
  obtain ⟨s1, s2, s3, s4, s5, s6, P, q, h1, h2, h3, h4, h5, h6, hP, hq, h7⟩ := loopBody_ok h
  obtain ⟨a1, a2, a3, a4, a5, a6, a7, a8, a9, a10⟩ :=
    applyImgUpd_fields st (unpackThermal (async_measure devs o inp).thermal).2
  rcases tickSaveScalar_ok h1 with ⟨hf, _⟩ | ⟨_, T, I, hT, hI, _, _, rfl⟩
  · rw [hf] at hsave; cases hsave
  · obtain ⟨c1, c2, c3, c4, c5, c6, c7, c8⟩ := tickSpatial_fields h2
    obtain ⟨d1, d2, d3, d4, d5, d6, d7, d8⟩ := tickImage_fields h3
    obtain ⟨e1, e2, e3, e4, e5, e6, e7, e8, e9, e10⟩ := tickSpectraSave_fields h4
    obtain ⟨f1, f2, f3, f4, f5, f6, f7, f8, f9, f10⟩ := tickOsc_fields h5
    obtain ⟨g1, g2, g3, g4, g5, g6, g7, g8, g9, g10⟩ := tickEmb_fields h6
    obtain ⟨k1, k2, k3, k4, k5, k6, k7, k8⟩ := tickTiming_fields h7
    refine ⟨T, I, ?_, ?_, ?_, ?_⟩
    · rw [← a1]; exact hT
    · rw [← a2]; exact hI
    · rw [k1, g1, f1, e1, d1, c1]
    · rw [k2, g2, f2, e2, d2, c2]

theorem stOrDefault_ok {x : Except String LoopState} (h : exceptIsOk x = true) :
    x = Except.ok (stOrDefault x) := by
  cases x with
  | ok s => rfl
  | error e => simp [exceptIsOk] at h

/-! ## Claim C1: the deadline scheduler -/

/-- C1 (amended): for every tick `i` of `run_open_loop`, with
`pauseTime = tSampling - elapsed`: if `pauseTime > 0` the loop sleeps exactly
`pauseTime` and `i` is not flagged; otherwise it proceeds without sleeping
and - when `saveData` is enabled - `i` is appended exactly once to the
overrun list (with `saveData` disabled nothing records the overrun); the
tick's measurements are stored in the result arrays regardless of the
overrun, and over a whole run the overrun list is exactly the list of
overrun tick indices, each appearing once. -/
theorem C1_deadline_scheduler {o : RunOpts} {devs : Devices} {ps fs : List ℚ}
    {i : Nat} {inp : TickInputs} {st st' : LoopState}
    (h : loopBody o devs ps fs i inp st = Except.ok st') :
    (o.tSampling - inp.elapsed > 0 →
      st'.sleeps = st.sleeps ++ [(i, o.tSampling - inp.elapsed)] ∧
      st'.badTimes = st.badTimes) ∧
    (o.tSampling - inp.elapsed ≤ 0 →
      st'.sleeps = st.sleeps ∧
      (o.saveData = true → ∀ bt, st.badTimes = some bt →
        st'.badTimes = some (bt ++ [i]) ∧ (i ∉ bt → (bt ++ [i]).count i = 1)) ∧
      (o.saveData = false → st'.badTimes = st.badTimes)) ∧
    (o.saveData = true → ∃ T, st.Tsave = some T ∧
      st'.Tsave = some (T.set i (unpackThermal (async_measure devs o inp).thermal).1.1)) ∧
    (∀ (st0 stN : LoopState) (k : Nat) (ticks : Nat → TickInputs),
      o.saveData = true → st0.badTimes = some [] →
      runLoop o devs ps fs ticks st0 k = Except.ok stN →
      stN.badTimes = some (overrunList o ticks k)) := by
  obtain ⟨s1, s2, s3, s4, s5, s6, P, q, h1, h2, h3, h4, h5, h6, hP, hq, h7⟩ := loopBody_ok h
  obtain ⟨a1, a2, a3, a4, a5, a6, a7, a8, a9, a10⟩ :=
    applyImgUpd_fields st (unpackThermal (async_measure devs o inp).thermal).2
  obtain ⟨b1, b2, b3, b4, b5, b6, b7, b8, b9, b10⟩ := tickSaveScalar_fields h1
  obtain ⟨c1, c2, c3, c4, c5, c6, c7, c8⟩ := tickSpatial_fields h2
  obtain ⟨d1, d2, d3, d4, d5, d6, d7, d8⟩ := tickImage_fields h3
  obtain ⟨e1, e2, e3, e4, e5, e6, e7, e8, e9, e10⟩ := tickSpectraSave_fields h4
  obtain ⟨f1, f2, f3, f4, f5, f6, f7, f8, f9, f10⟩ := tickOsc_fields h5
  obtain ⟨g1, g2, g3, g4, g5, g6, g7, g8, g9, g10⟩ := tickEmb_fields h6
  have hbt6 : s6.badTimes = st.badTimes := by rw [g3, f3, e3, d3, c3, b3, a3]
  have hsl6 : s6.sleeps = st.sleeps := by rw [g10, f10, e10, d8, c8, b10, a9]
  refine ⟨?_, ?_, ?_, ?_⟩
  · intro hpos
    rcases tickTiming_ok h7 with ⟨_, rfl⟩ | ⟨hneg, _, _, _, _⟩ | ⟨hneg, _, _⟩
    · constructor
      · simp [hsl6]
      · simp [hbt6]
    · exact absurd hpos hneg
    · exact absurd hpos hneg
  · intro hov
    rcases tickTiming_ok h7 with ⟨hpos, _⟩ | ⟨hneg, hsd, bt', hbt', rfl⟩ | ⟨hneg, hsd, rfl⟩
    · exact absurd hpos (not_lt.mpr hov)
    · refine ⟨by simp [hsl6], ?_, ?_⟩
      · intro _ bt hbt
        rw [hbt6, hbt] at hbt'
        injection hbt' with hbt'
        subst hbt'
        refine ⟨by simp, ?_⟩
        intro hni
        rw [List.count_append]
        rw [List.count_eq_zero_of_not_mem hni]
        simp
      · intro hsd'
        rw [hsd'] at hsd
        cases hsd
    · exact ⟨by simp [hsl6], fun hsd' => absurd hsd (by simp [hsd']), fun _ => by simp [hbt6]⟩
  · intro hsd
    obtain ⟨T, I, hT, hI, hT', hI'⟩ := loopBody_scalar hsd h
    exact ⟨T, hT, hT'⟩
  · intro st0 stN k ticks hsd hbt0 hrun
    have := runLoop_badTimes hsd hbt0 hrun
    simpa using this

/-- C1 counterexample to the claim as stated: a tick of a run with `saveData`
disabled overruns (elapsed 2 s against a 1 s period) yet its index is not
appended to the overrun list - the append is guarded by `saveData`. -/
theorem C1_counterexample :
    exceptIsOk (loopBody oNoSave devsAll [5] [7] 0 inpOverrun stBadTimesOnly) = true ∧
    (stOrDefault (loopBody oNoSave devsAll [5] [7] 0 inpOverrun stBadTimesOnly)).badTimes =
      some [] ∧
    oNoSave.tSampling - inpOverrun.elapsed ≤ 0 ∧
    ¬ (0 ∈ ((stOrDefault
      (loopBody oNoSave devsAll [5] [7] 0 inpOverrun stBadTimesOnly)).badTimes.getD [])) := by
  refine ⟨?_, ?_, ?_, ?_⟩ <;> decide

/-- C1 witness: the amended theorem applied to a concrete overrunning tick of
a `saveData` run - the tick sleeps nothing, records its index once, and its
temperature still lands in the result array. -/
theorem C1_witness :
    (stOrDefault (loopBody oScalarOnly devsAll [5] [7] 0 inpOverrun stScalar1)).badTimes =
      some [0] ∧
    (stOrDefault (loopBody oScalarOnly devsAll [5] [7] 0 inpOverrun stScalar1)).sleeps = [] ∧
    (stOrDefault (loopBody oScalarOnly devsAll [5] [7] 0 inpOverrun stScalar1)).Tsave =
      some [30] := by
  have hok : loopBody oScalarOnly devsAll [5] [7] 0 inpOverrun stScalar1 =
      Except.ok (stOrDefault (loopBody oScalarOnly devsAll [5] [7] 0 inpOverrun stScalar1)) :=
    stOrDefault_ok (by decide)
  obtain ⟨hpos, hov, hsc, hrun⟩ := C1_deadline_scheduler hok
  obtain ⟨hsl, hbt, _⟩ := hov (by decide)
  obtain ⟨hbteq, _⟩ := hbt rfl [] (by decide)
  obtain ⟨T, hT, hT'⟩ := hsc rfl
  refine ⟨?_, ?_, ?_⟩
  · rw [hbteq]; decide
  · rw [hsl]; decide
  · rw [hT']
    have : T = [0] := by
      have : stScalar1.Tsave = some [0] := by decide
      rw [this] at hT
      injection hT with h2
      exact h2.symm
    subst this
    decide

/-! ## Claims C7 and C10: run-level invariants -/

theorem recOrDefault_ok {x : Except String (RunOpts × ExpData × LoopState)}
    (h : exceptIsOk x = true) : x = Except.ok (recOrDefault x) := by
  cases x with
  | ok r => rfl
  | error e => simp [exceptIsOk] at h

theorem resOrDefault_ok {x : Except String (ExpData × List Artifact × LoopState)}
    (h : exceptIsOk x = true) : x = Except.ok (resOrDefault x) := by
  cases x with
  | ok r => rfl
  | error e => simp [exceptIsOk] at h

/-- Shared facts about any successful `runToRecord`: the sequences and flags
it requires, and the shapes of the stored series. -/
theorem runToRecord_props {o : RunOpts} {devices : Option Devices} {ps fs : List ℚ}
    {init : TickInputs} {ticks : Nat → TickInputs} {pt : ℚ} {o' : RunOpts}
    {d : ExpData} {st : LoopState}
    (h : runToRecord o devices ps fs init ticks pt = Except.ok (o', d, st)) :
    o.collectData = true ∧ o.saveData = true ∧
    d.Niter = min ps.length fs.length ∧
    d.Tsave.length = min ps.length fs.length ∧
    d.Isave.length = min ps.length fs.length ∧
    d.Psave = ps ∧ d.qSave = fs ∧
    (0 < min ps.length fs.length → ∃ devs, devices = some devs ∧
      o.collectEmbedded = true ∧ devs.arduinoPI = true) := by
  obtain ⟨devs, st0, stL, hdev, hsetup, hloop, hstF, hbuild⟩ := runToRecord_ok h
  obtain ⟨T1, T2, T3, hNit, hPs, hqs⟩ := buildExpData_core hbuild
  have hstT : st.Tsave = stL.Tsave := by rw [hstF]; split <;> simp
  have hstI : st.Isave = stL.Isave := by rw [hstF]; split <;> simp
  obtain ⟨l1, l2, l3⟩ := runLoop_fields hloop
  obtain ⟨hcd, hspec, hcont⟩ := setupRun_ok hsetup
  obtain ⟨p1, p2, p3, p4, p5, p6, p7, p8, p9, q1, q2, q3, q4, q5, q6, q7, q8, q9,
    q10, q11, q12, hImgOff⟩ := setupContainers_props hcont
  have hsd : o.saveData = true := by
    by_contra hc
    rw [Bool.not_eq_true] at hc
    rw [hc, if_neg (by simp)] at p1
    have : optLen st.Tsave = none := by rw [hstT, l1, p1]; rfl
    rw [T1] at this
    simp [optLen] at this
  refine ⟨hcd, hsd, hNit, ?_, ?_, hPs, hqs, ?_⟩
  · have : optLen st.Tsave = some (min ps.length fs.length) := by
      rw [hstT, l1, p1, if_pos hsd]
      simp [optLen]
    rw [T1] at this
    simp [optLen] at this
    omega
  · have : optLen st.Isave = some (min ps.length fs.length) := by
      rw [hstI, l2, p2, if_pos hsd]
      simp [optLen]
    rw [T2] at this
    simp [optLen] at this
    omega
  · intro hpos
    obtain ⟨a, b, hb⟩ := runLoop_first hloop hpos
    obtain ⟨s1, s2, s3, s4, s5, s6, P, q, h1, h2, h3, h4, h5, h6, hP, hq, h7⟩ :=
      loopBody_ok hb
    obtain ⟨v, t, hv, ht, _⟩ := tickEmb_ok h6
    simp only [async_measure, async_get_emb_result] at hv
    split at hv
    case isTrue hcond =>
      rw [Bool.and_eq_true] at hcond
      refine ⟨devs, hdev, ?_, hcond.2⟩
      rw [← q5]
      exact hcond.1
    case isFalse hcond => exact Option.noConfusion hv

/-- C7 (amended): for every run with both sequences provided,
`Niter = min(nP, nq)`, the temperature and intensity series in the run record
have length exactly `Niter`, but the stored power and flow series are the
full input sequences (lengths `nP` and `nq`), so they have length `Niter`
only when `nP = nq`. -/
theorem C7_record_series_lengths {o : RunOpts} {devices : Option Devices}
    {ps fs : List ℚ} {init : TickInputs} {ticks : Nat → TickInputs} {pt : ℚ}
    {o' : RunOpts} {d : ExpData} {st : LoopState}
    (h : runToRecord o devices ps fs init ticks pt = Except.ok (o', d, st)) :
    d.Niter = min ps.length fs.length ∧
    d.Tsave.length = d.Niter ∧ d.Isave.length = d.Niter ∧
    d.Psave.length = ps.length ∧ d.qSave.length = fs.length := by
  obtain ⟨hcd, hsd, hNit, hT, hI, hPs, hqs, _⟩ := runToRecord_props h
  refine ⟨hNit, ?_, ?_, ?_, ?_⟩
  · rw [hT, hNit]
  · rw [hI, hNit]
  · rw [hPs]
  · rw [hqs]

/-- C7 counterexample to the claim as stated: a run with a power sequence of
length 2 and a flow sequence of length 1 builds its record with `Niter = 1`
but stores the full power sequence - `Psave` has length 2, not `Niter`. -/
theorem C7_counterexample :
    exceptIsOk (runToRecord oBase (some devsAll) [5, 6] [7] inpBase ticksBase 0) = true ∧
    (recOrDefault (runToRecord oBase (some devsAll) [5, 6] [7] inpBase ticksBase 0)).2.1.Niter
      = 1 ∧
    (recOrDefault
      (runToRecord oBase (some devsAll) [5, 6] [7] inpBase ticksBase 0)).2.1.Psave.length = 2 ∧
    (2 : Nat) ≠ 1 := by
  refine ⟨?_, ?_, ?_, ?_⟩ <;> decide

/-- C7 witness: the amended theorem at a concrete 1-tick run. -/
theorem C7_witness :
    (recOrDefault (runToRecord oBase (some devsAll) [5] [7] inpBase ticksBase 0)).2.1.Niter
      = 1 ∧
    (recOrDefault
      (runToRecord oBase (some devsAll) [5] [7] inpBase ticksBase 0)).2.1.Tsave.length = 1 ∧
    (recOrDefault
      (runToRecord oBase (some devsAll) [5] [7] inpBase ticksBase 0)).2.1.Psave.length = 1 := by
  have hok : runToRecord oBase (some devsAll) [5] [7] inpBase ticksBase 0 =
      Except.ok
        ((recOrDefault (runToRecord oBase (some devsAll) [5] [7] inpBase ticksBase 0)).1,
          (recOrDefault (runToRecord oBase (some devsAll) [5] [7] inpBase ticksBase 0)).2.1,
          (recOrDefault (runToRecord oBase (some devsAll) [5] [7] inpBase ticksBase 0)).2.2) := by
    nth_rewrite 1 [recOrDefault_ok
      (x := runToRecord oBase (some devsAll) [5] [7] inpBase ticksBase 0) (by decide)]
    rfl
  obtain ⟨hNit, hT, hI, hPs, hqs⟩ := C7_record_series_lengths hok
  refine ⟨?_, ?_, ?_⟩
  · rw [hNit]; decide
  · rw [hT, hNit]; decide
  · rw [hPs]; decide

/-- C10 (amended): a run completes without raising only when `collectData` and
`saveData` are enabled (the pre-loop setup subscripts the `None` thermal and
spectral readings, and the record build references `Tsave`/`Isave`/`badTimes`
unconditionally); when the run performs at least one tick, `collectEmbedded`
must additionally be enabled with an Arduino handle present (every tick
subscripts `arduinoOut[0]`).  With zero ticks (empty input sequences) the
per-tick requirement is vacuous and a run with `collectEmbedded` off can
complete. -/
theorem C10_completion_requirements {o : RunOpts} {devices : Option Devices}
    {ps fs : List ℚ} {init : TickInputs} {ticks : Nat → TickInputs} {pt : ℚ}
    {res : ExpData × List Artifact × LoopState}
    (h : run_open_loop o devices ps fs init ticks pt = Except.ok res) :
    o.collectData = true ∧ o.saveData = true ∧
    (0 < min ps.length fs.length → ∃ devs, devices = some devs ∧
      o.collectEmbedded = true ∧ devs.arduinoPI = true) := by
  simp only [run_open_loop] at h
  obtain ⟨r, hr, h⟩ := except_bind_ok.mp h
  obtain ⟨o2, d, stt⟩ := r
  obtain ⟨hcd, hsd, _, _, _, _, _, hEmb⟩ := runToRecord_props hr
  exact ⟨hcd, hsd, hEmb⟩

/-- C10 counterexample to the claim as stated: a full run with
`collectEmbedded` disabled completes without raising when the input sequences
are empty (`Niter = 0`, the loop body never runs). -/
theorem C10_counterexample :
    exceptIsOk (run_open_loop oNoEmb (some devsAll) [] [] inpBase ticksBase 0) = true ∧
    oNoEmb.collectEmbedded = false := by
  constructor <;> decide

/-- C10 witness: the amended theorem at a concrete 1-tick run with everything
it requires enabled. -/
theorem C10_witness :
    oBase.collectData = true ∧ oBase.saveData = true ∧
    (0 < min [(5 : ℚ)].length [(7 : ℚ)].length → ∃ devs, some devsAll = some devs ∧
      oBase.collectEmbedded = true ∧ devs.arduinoPI = true) := by
  have hok : run_open_loop oBase (some devsAll) [5] [7] inpBase ticksBase 0 =
      Except.ok (resOrDefault (run_open_loop oBase (some devsAll) [5] [7] inpBase ticksBase 0)) :=
    resOrDefault_ok (by decide)
  exact C10_completion_requirements hok

/-! ## Claims C4, C5, C8: per-kind artifact persistence -/

theorem saverStep_err {S : SaverSt} {f : List Artifact → SaverSt}
    (h : S.2.isSome = true) : saverStep S f = S := by
  obtain ⟨arts, err⟩ := S
  cases err with
  | some e => rfl
  | none => simp at h

theorem saverStep_arts {P : Artifact → Prop} {S : SaverSt} {f : List Artifact → SaverSt}
    (hf : ∀ arts, ∃ nw, (f arts).1 = arts ++ nw ∧ ∀ a ∈ nw, P a) :
    ∃ nw, (saverStep S f).1 = S.1 ++ nw ∧ ∀ a ∈ nw, P a := by
  obtain ⟨arts, err⟩ := S
  cases err with
  | some e => exact ⟨[], by simp [saverStep], by simp⟩
  | none => exact hf arts

theorem saveDataBlock_arts (d : ExpData) (o : RunOpts) (arts : List Artifact) :
    ∃ nw, (saveDataBlock d o arts).1 = arts ++ nw ∧
      ∀ a ∈ nw, a = Artifact.combined ∨ ∃ bt, a = Artifact.badTimesFile bt := by
  unfold saveDataBlock
  split_ifs with h1 h2 h3
  · refine ⟨[Artifact.combined, Artifact.badTimesFile d.badTimes], rfl, ?_⟩
    intro a ha
    simp only [List.mem_cons, List.not_mem_nil, or_false] at ha
    rcases ha with rfl | rfl
    · exact Or.inl rfl
    · exact Or.inr ⟨d.badTimes, rfl⟩
  · refine ⟨[Artifact.combined], rfl, ?_⟩
    intro a ha
    simp only [List.mem_cons, List.not_mem_nil, or_false] at ha
    subst ha
    exact Or.inl rfl
  · exact ⟨[], by simp, by simp⟩
  · exact ⟨[], by simp, by simp⟩

theorem spatialBlock_arts (d : ExpData) (o : RunOpts) (arts : List Artifact) :
    ∃ nw, (spatialBlock d o arts).1 = arts ++ nw ∧ ∀ a ∈ nw, a = Artifact.spatial := by
  unfold spatialBlock
  by_cases h1 : o.saveSpatialTemp
  · simp only [h1, if_true]
    cases d.Ts2save with
    | none => exact ⟨[], by simp, by simp⟩
    | some a =>
      cases d.Ts3save with
      | none => exact ⟨[], by simp, by simp⟩
      | some b =>
        dsimp only
        by_cases h2 : d.Tsave.length = a.length ∧ d.Tsave.length = b.length
        · refine ⟨[Artifact.spatial], by rw [if_pos h2], ?_⟩
          intro x hx
          simp only [List.mem_cons, List.not_mem_nil, or_false] at hx
          exact hx
        · exact ⟨[], by rw [if_neg h2]; simp, by simp⟩
  · exact ⟨[], by simp [h1], by simp⟩

theorem spectraBlock_arts (d : ExpData) (o : RunOpts) (arts : List Artifact) :
    ∃ nw, (spectraBlock d o arts).1 = arts ++ nw ∧ ∀ a ∈ nw, a = Artifact.spectra := by
  unfold spectraBlock
  by_cases h1 : o.saveSpectra
  · simp only [h1, if_true]
    cases d.waveSave with
    | none => cases d.specSave <;> cases d.meanShiftSave <;> exact ⟨[], by simp, by simp⟩
    | some w =>
      cases d.specSave with
      | none => cases d.meanShiftSave <;> exact ⟨[], by simp, by simp⟩
      | some sv =>
        cases d.meanShiftSave with
        | none => exact ⟨[], by simp, by simp⟩
        | some m =>
          refine ⟨[Artifact.spectra], by simp, ?_⟩
          intro x hx
          simp only [List.mem_cons, List.not_mem_nil, or_false] at hx
          exact hx
  · exact ⟨[], by simp [h1], by simp⟩

theorem oscBlock_err4 {d : ExpData} {o : RunOpts} {l : List Mat}
    (hosc : o.saveOscMeas = true) (hos : d.oscSave = some l) (hlen : l.length = 4)
    (arts : List Artifact) :
    oscBlock d o arts = (arts, some "IndexError: list index out of range (oscSave)") := by
  unfold oscBlock
  rw [hosc, if_pos rfl, hos]
  match l, hlen with
  | [m0, m1, m2, m3], _ => rfl

theorem saveDataBlock_combined {d : ExpData} {o : RunOpts} (arts : List Artifact)
    (hsd : o.saveData = true) (h1 : d.Tsave.length = d.Isave.length)
    (h2 : d.Tsave.length = d.Psave.length) (h3 : d.Tsave.length = d.qSave.length) :
    Artifact.combined ∈ (saveDataBlock d o arts).1 ∧ (saveDataBlock d o arts).2 = none := by
  unfold saveDataBlock
  rw [hsd, if_pos rfl, if_pos ⟨h1, h2, h3⟩]
  by_cases hb : d.badTimes ≠ [] <;> simp [hb]

/-- C8 (amended): `exp_data_saver` has no per-artifact exception handling; a
failure raised while writing one artifact kind aborts the function, so the
artifact kinds that come later in the fixed order are never attempted, while
the artifacts already written are kept.  Concretely, when the oscilloscope
block raises (4 channels), the embedded table and the per-frame images are
not written, but the combined table written before it survives. -/
theorem C8_saver_aborts_on_failure {d : ExpData} {o : RunOpts} {l : List Mat}
    (hosc : o.saveOscMeas = true) (hos : d.oscSave = some l) (hlen : l.length = 4) :
    (exp_data_saver d o).2.isSome = true ∧
    Artifact.embedded ∉ (exp_data_saver d o).1 ∧
    (∀ j, Artifact.image j ∉ (exp_data_saver d o).1) ∧
    (o.saveData = true → d.Tsave.length = d.Isave.length →
      d.Tsave.length = d.Psave.length → d.Tsave.length = d.qSave.length →
      Artifact.combined ∈ (exp_data_saver d o).1) := by
  unfold exp_data_saver
  set S1 := saveDataBlock d o [] with hS1
  set S2 := saverStep S1 (spatialBlock d o) with hS2
  set S3 := saverStep S2 (spectraBlock d o) with hS3
  set S4 := saverStep S3 (oscBlock d o) with hS4
  -- after the oscilloscope block an exception is always pending
  have h4some : S4.2.isSome = true := by
    rw [hS4]
    obtain ⟨a3, e3⟩ := S3
    cases e3 with
    | some e => rfl
    | none => rw [saverStep, oscBlock_err4 hosc hos hlen]; rfl
  have h5 : saverStep S4 (embBlock d o) = S4 := saverStep_err h4some
  have h6 : saverStep (saverStep S4 (embBlock d o)) (imagesBlock d o) = S4 := by
    rw [h5]; exact saverStep_err h4some
  rw [h6]
  -- the artifacts after the oscilloscope block are those of the first three
  have h4arts : S4.1 = S3.1 := by
    rw [hS4]
    obtain ⟨a3, e3⟩ := S3
    cases e3 with
    | some e => rfl
    | none => rw [saverStep, oscBlock_err4 hosc hos hlen]
  have hmem : ∀ a ∈ S3.1,
      (a = Artifact.combined ∨ ∃ bt, a = Artifact.badTimesFile bt) ∨
      a = Artifact.spatial ∨ a = Artifact.spectra := by
    obtain ⟨nw1, e1, p1⟩ := saveDataBlock_arts d o []
    obtain ⟨nw2, e2, p2⟩ := saverStep_arts (S := S1) (spatialBlock_arts d o)
    obtain ⟨nw3, e3, p3⟩ := saverStep_arts (S := S2) (spectraBlock_arts d o)
    intro a ha
    rw [hS3] at ha
    rw [e3] at ha
    rcases List.mem_append.mp ha with ha | ha
    · rw [hS2] at ha
      rw [e2] at ha
      rcases List.mem_append.mp ha with ha | ha
      · rw [hS1, e1] at ha
        rcases List.mem_append.mp ha with ha | ha
        · cases ha
        · exact Or.inl (p1 a ha)
      · exact Or.inr (Or.inl (p2 a ha))
    · exact Or.inr (Or.inr (p3 a ha))
  refine ⟨h4some, ?_, ?_, ?_⟩
  · intro hmem'
    rw [h4arts] at hmem'
    rcases hmem _ hmem' with (h | ⟨bt, h⟩) | h | h <;> cases h
  · intro j hmem'
    rw [h4arts] at hmem'
    rcases hmem _ hmem' with (h | ⟨bt, h⟩) | h | h <;> cases h
  · intro hsd e1 e2 e3
    rw [h4arts]
    obtain ⟨hc, hnone⟩ := saveDataBlock_combined [] hsd e1 e2 e3
    have : Artifact.combined ∈ S1.1 := by rw [hS1]; exact hc
    obtain ⟨nw2, e2', p2⟩ := saverStep_arts (S := S1) (spatialBlock_arts d o)
    obtain ⟨nw3, e3', p3⟩ := saverStep_arts (S := S2) (spectraBlock_arts d o)
    rw [hS3, e3', hS2, e2']
    exact List.mem_append.mpr (Or.inl (List.mem_append.mpr (Or.inl this)))

/-- C8 counterexample to the claim as stated: with the combined table,
oscilloscope archive (4 channels) and embedded table all enabled and their
data present, the oscilloscope failure prevents the embedded artifact from
being attempted - persistence failures are not isolated per artifact kind. -/
theorem C8_counterexample :
    (exp_data_saver dAbort oAbort).2.isSome = true ∧
    Artifact.combined ∈ (exp_data_saver dAbort oAbort).1 ∧
    Artifact.embedded ∉ (exp_data_saver dAbort oAbort).1 ∧
    oAbort.saveEmbMeas = true ∧ dAbort.ArdSave.isSome = true := by
  refine ⟨?_, ?_, ?_, ?_, ?_⟩ <;> decide

/-- C8 witness: the amended theorem at the concrete aborting record. -/
theorem C8_witness :
    (exp_data_saver dAbort oAbort).2.isSome = true ∧
    Artifact.embedded ∉ (exp_data_saver dAbort oAbort).1 ∧
    (∀ j, Artifact.image j ∉ (exp_data_saver dAbort oAbort).1) ∧
    Artifact.combined ∈ (exp_data_saver dAbort oAbort).1 := by
  have h := C8_saver_aborts_on_failure (d := dAbort) (o := oAbort)
    (l := (List.range 4).map (fun c => [[(c : ℚ)]])) (by decide) (by decide) (by decide)
  exact ⟨h.1, h.2.1, h.2.2.1, h.2.2.2 (by decide) (by decide) (by decide) (by decide)⟩

set_option maxRecDepth 100000 in
/-- C4: the batch-to-archive conversion at `Niter = 450`, `N_PER_BAT_FILE =
200` (3 batch files).  The source condition `n*N_PER_BAT_FILE + i <= Niter`
is an off-by-one: the conversion emits `iter450.h5` - an archival record at
index `Niter`, beyond the last real frame 449 - so 451 files are produced for
450 frames instead of 450. -/
theorem C4_conversion_off_by_one :
    Artifact.image 450 ∈ (exp_data_saver dImg450 oImgOnly).1 ∧
    (exp_data_saver dImg450 oImgOnly).1.length = 451 ∧
    (exp_data_saver dImg450 oImgOnly).2 = none ∧
    Artifact.image 451 ∉ (exp_data_saver dImg450 oImgOnly).1 ∧
    dImg450.Niter = 450 := by
  refine ⟨?_, ?_, ?_, ?_, ?_⟩ <;> decide

/-- C5: the oscilloscope archive with 1, 2 and 3 channels writes exactly the
key sets `{chA}`, `{chA,chB}`, `{chA,chB,chC}` with channel `c`'s matrix under
key `c`; with 4 channels the source evaluates `oscSave[4]` - past the end of
the 4-element list - so the write raises an IndexError and no archive is
produced; with 5 channels the channel-count complaint is printed and nothing
is written (no exception). -/
theorem C5_osc_archive_channels :
    (exp_data_saver (dOsc 1) oOscOnly).1 = [Artifact.oscArchive [("chA", [[0]])]] ∧
    (exp_data_saver (dOsc 1) oOscOnly).2 = none ∧
    (exp_data_saver (dOsc 2) oOscOnly).1 =
      [Artifact.oscArchive [("chA", [[0]]), ("chB", [[1]])]] ∧
    (exp_data_saver (dOsc 2) oOscOnly).2 = none ∧
    (exp_data_saver (dOsc 3) oOscOnly).1 =
      [Artifact.oscArchive [("chA", [[0]]), ("chB", [[1]]), ("chC", [[2]])]] ∧
    (exp_data_saver (dOsc 3) oOscOnly).2 = none ∧
    (exp_data_saver (dOsc 4) oOscOnly).1 = [] ∧
    (exp_data_saver (dOsc 4) oOscOnly).2 =
      some "IndexError: list index out of range (oscSave)" ∧
    (exp_data_saver (dOsc 5) oOscOnly).1 = [] ∧
    (exp_data_saver (dOsc 5) oOscOnly).2 = none := by
  refine ⟨?_, ?_, ?_, ?_, ?_, ?_, ?_, ?_, ?_, ?_⟩ <;> decide

/-! ## Claim C2: the concurrent sampler -/

theorem taskResult_lookup {g : Fin 4 → MeasResult} {k : Fin 4} :
    ∀ {l : List (Fin 4 × MeasResult)}, (∀ p ∈ l, p.2 = g p.1) →
      k ∈ l.map Prod.fst → taskResult l k = some (g k) := by
  intro l
  induction l with
  | nil => intro _ hk; simp at hk
  | cons p rest ih =>
    intro hall hk
    by_cases hpk : p.1 = k
    · unfold taskResult
      rw [List.find?_cons_of_pos _ (by simp [hpk])]
      have := hall p (List.mem_cons_self p rest)
      simp [this, hpk]
    · unfold taskResult
      rw [List.find?_cons_of_neg _ (by simp [hpk])]
      have hk' : k ∈ rest.map Prod.fst := by
        rw [List.map_cons] at hk
        rcases List.mem_cons.mp hk with h | h
        · exact absurd h.symm hpk
        · exact h
      have := ih (fun q hq => hall q (List.mem_cons_of_mem p hq)) hk'
      unfold taskResult at this
      exact this

/-- C2: each tick launches the four sampling tasks and joins on all of them
before actuating.  Whatever completion order `σ` the scheduler chooses, the
result retrieved for task id `k` (`tasks[k].result()`, position 0 thermal, 1
spectral, 2 oscilloscope, 3 embedded) is the value task `k` computed -
independent of `σ` - and in the tick's event trace every task's completion
strictly precedes the actuation. -/
theorem C2_sampler_join_and_identity :
    (∀ (σ : Equiv.Perm (Fin 4)) (devs : Devices) (o : RunOpts) (inp : TickInputs)
      (k : Fin 4),
      taskResult (completionLog σ devs o inp) k = some (taskRun devs o inp k)) ∧
    (∀ (σ : Equiv.Perm (Fin 4)) (P q : ℚ) (j : Nat) (P' q' : ℚ),
      (tickEvents σ P q).get? j = some (TickEvent.actuate P' q') →
      ∀ k : Fin 4, ∃ j' : Nat, j' < j ∧
        (tickEvents σ P q).get? j' = some (TickEvent.completes k)) := by
  constructor
  · intro σ devs o inp k
    apply taskResult_lookup
    · intro p hp
      simp only [completionLog, List.mem_map] at hp
      obtain ⟨j, _, rfl⟩ := hp
      rfl
    · have hmap : (completionLog σ devs o inp).map Prod.fst = [σ 0, σ 1, σ 2, σ 3] := by
        simp [completionLog, taskIds]
      rw [hmap]
      have hk : σ (σ.symm k) = k := σ.apply_symm_apply k
      rcases hsm : (σ.symm k) with ⟨mv, hmv⟩
      rw [hsm] at hk
      interval_cases mv <;> rw [← hk] <;> simp
  · intro σ P q j P' q' hj k
    have hev : tickEvents σ P q =
        [TickEvent.completes (σ 0), TickEvent.completes (σ 1), TickEvent.completes (σ 2),
          TickEvent.completes (σ 3), TickEvent.join, TickEvent.actuate P q] := rfl
    rw [hev] at hj
    have hjlt : j < 6 := by
      by_contra hc
      rw [List.get?_eq_none.mpr (by simp; omega)] at hj
      cases hj
    have hj5 : j = 5 := by
      interval_cases j <;> simp_all
    subst hj5
    have hk : σ (σ.symm k) = k := σ.apply_symm_apply k
    rcases hsm : (σ.symm k) with ⟨mv, hmv⟩
    rw [hsm] at hk
    interval_cases mv
    · exact ⟨0, by omega, by rw [hev, ← hk]; rfl⟩
    · exact ⟨1, by omega, by rw [hev, ← hk]; rfl⟩
    · exact ⟨2, by omega, by rw [hev, ← hk]; rfl⟩
    · exact ⟨3, by omega, by rw [hev, ← hk]; rfl⟩

/-- C2 witness: the theorem at a concrete completion order (the embedded task
finishes first, the thermal task last): the oscilloscope result is still
bound to task id 2, and some completion of task 0 precedes the actuation at
position 5. -/
theorem C2_witness :
    taskResult (completionLog permRev devsAll oBase inpBase) 2 =
      some (taskRun devsAll oBase inpBase 2) ∧
    ((List.range 5).any (fun j' =>
      (tickEvents permRev 5 7).get? j' == some (TickEvent.completes 0))) = true := by
  refine ⟨C2_sampler_join_and_identity.1 permRev devsAll oBase inpBase 2, ?_⟩
  obtain ⟨j', hj', hev⟩ :=
    C2_sampler_join_and_identity.2 permRev 5 7 5 5 7 (by decide) 0
  rw [List.any_eq_true]
  refine ⟨j', List.mem_range.mpr hj', ?_⟩
  rw [hev]
  simp

/-! ## Claim C9: the embedded-telemetry line protocol -/

/-- C9: the embedded sample returns only after a line passes the checksum:
transport failures and checksum-invalid lines are discarded and the read
retried, with no bound on the number of retries; the first valid line is
decoded by fixed comma-separated position - field 0 the timestamp, 1 the
voltage, 2 the frequency, 3 the flow, 4 the z-position, 5 the duty cycle,
6 the intensity, 7 the embedded voltage, 8 the embedded temperature, 9 the
embedded current, 10 the x position, 11 the y position, 13 the power
setpoint and 14 the embedded power (field 12 is never read). -/
theorem C9_embedded_line_protocol :
    (∀ rest : List ReadEvt, async_get_emb_loop (ReadEvt.fail :: rest) =
      async_get_emb_loop rest) ∧
    (∀ (l : EmbLine) (rest : List ReadEvt), l.valid = false →
      async_get_emb_loop (ReadEvt.line l :: rest) = async_get_emb_loop rest) ∧
    (∀ (n : Nat) (rest : List ReadEvt),
      async_get_emb_loop (List.replicate n ReadEvt.fail ++ rest) =
        async_get_emb_loop rest) ∧
    (∀ (evts : List ReadEvt) (arr : List ℚ), async_get_emb_loop evts = some arr →
      ∃ l : EmbLine, ReadEvt.line l ∈ evts ∧ l.valid = true) ∧
    (∀ (rest : List ReadEvt)
      (t V f q dsep Dc Is V_emb T_emb I_emb x y junk12 Pset P_emb : ℚ)
      (tail : List ℚ),
      async_get_emb_loop (ReadEvt.line
        { valid := true
          fields := [t, V, f, q, dsep, Dc, Is, V_emb, T_emb, I_emb, x, y, junk12,
            Pset, P_emb] ++ tail } :: rest) =
      some [t, Is, V, f, q, x, y, dsep, T_emb, P_emb, Pset, Dc, V_emb, I_emb]) := by
  refine ⟨?_, ?_, ?_, ?_, ?_⟩
  · intro rest
    rfl
  · intro l rest hv
    conv_lhs => rw [async_get_emb_loop]
    rw [hv]
    simp
  · intro n
    induction n with
    | zero => intro rest; rfl
    | succ m ih =>
      intro rest
      rw [List.replicate_succ, List.cons_append]
      rw [show async_get_emb_loop (ReadEvt.fail ::
        (List.replicate m ReadEvt.fail ++ rest)) =
        async_get_emb_loop (List.replicate m ReadEvt.fail ++ rest) from rfl]
      exact ih rest
  · intro evts
    induction evts with
    | nil => intro arr h; cases h
    | cons e rest ih =>
      intro arr h
      cases e with
      | fail =>
        obtain ⟨l, hl, hv⟩ := ih arr h
        exact ⟨l, List.mem_cons_of_mem _ hl, hv⟩
      | line l =>
        by_cases hv : l.valid = true
        · unfold async_get_emb_loop at h
          rw [hv] at h
          simp only [if_true] at h
          cases hp : embParseLine l.fields with
          | some a => exact ⟨l, List.mem_cons_self _ _, hv⟩
          | none =>
            rw [hp] at h
            obtain ⟨l', hl', hv'⟩ := ih arr h
            exact ⟨l', List.mem_cons_of_mem _ hl', hv'⟩
        · unfold async_get_emb_loop at h
          rw [Bool.not_eq_true] at hv
          rw [hv] at h
          simp only [Bool.false_eq_true, if_false] at h
          obtain ⟨l', hl', hv'⟩ := ih arr h
          exact ⟨l', List.mem_cons_of_mem _ hl', hv'⟩
  · intro rest t V f q dsep Dc Is V_emb T_emb I_emb x y junk12 Pset P_emb tail
    rfl

/-- C9 witness: the protocol theorem on a concrete stream - one transport
failure and one checksum-invalid line are retried, and the first valid line
`100,1,2,...,14` decodes into the fixed-position array. -/
theorem C9_witness :
    async_get_emb_loop embStream =
      some [100, 6, 1, 2, 3, 10, 11, 4, 8, 14, 13, 5, 7, 9] ∧
    async_get_emb_loop (List.replicate 3 ReadEvt.fail ++ embStream) =
      async_get_emb_loop embStream := by
  obtain ⟨hfail, hinv, hrep, hvalid, hdec⟩ := C9_embedded_line_protocol
  constructor
  · have h1 : async_get_emb_loop embStream =
        async_get_emb_loop (embStream.drop 1) := hfail _
    have h2 : async_get_emb_loop (embStream.drop 1) =
        async_get_emb_loop (embStream.drop 2) := hinv _ _ (by decide)
    rw [h1, h2]
    exact hdec [] 100 1 2 3 4 5 6 7 8 9 10 11 12 13 14 []
  · exact hrep 3 embStream

/-! ## Claim C6: sentinel values and save-flag auto-disable -/

theorem loopBody_spatial {o : RunOpts} {devs : Devices} {ps fs : List ℚ} {i : Nat}
    {inp : TickInputs} {st st' : LoopState}
    (hsp : o.saveSpatialTemp = true)
    (h : loopBody o devs ps fs i inp st = Except.ok st') :
    ∃ a b, st.Ts2save = some a ∧ st.Ts3save = some b ∧
      st'.Ts2save = some (a.set i (unpackThermal (async_measure devs o inp).thermal).1.2.1) ∧
      st'.Ts3save = some (b.set i (unpackThermal (async_measure devs o inp).thermal).1.2.2) := by
  obtain ⟨s1, s2, s3, s4, s5, s6, P, q, h1, h2, h3, h4, h5, h6, hP, hq, h7⟩ := loopBody_ok h
  obtain ⟨a1, a2, a3, a4, a5, a6, a7, a8, a9, a10⟩ :=
    applyImgUpd_fields st (unpackThermal (async_measure devs o inp).thermal).2
  obtain ⟨b1, b2, b3, b4, b5, b6, b7, b8, b9, b10⟩ := tickSaveScalar_fields h1
  rcases tickSpatial_ok h2 with ⟨hf, _⟩ | ⟨_, a, b, ha, hb, _, _, rfl⟩
  · rw [hf] at hsp; cases hsp
  · obtain ⟨d1, d2, d3, d4, d5, d6, d7, d8⟩ := tickImage_fields h3
    obtain ⟨e1, e2, e3, e4, e5, e6, e7, e8, e9, e10⟩ := tickSpectraSave_fields h4
    obtain ⟨f1, f2, f3, f4, f5, f6, f7, f8, f9, f10⟩ := tickOsc_fields h5
    obtain ⟨g1, g2, g3, g4, g5, g6, g7, g8, g9, g10⟩ := tickEmb_fields h6
    obtain ⟨k1, k2, k3, k4, k5, k6, k7, k8⟩ := tickTiming_fields h7
    refine ⟨a, b, ?_, ?_, ?_, ?_⟩
    · rw [← a4, ← b4]; exact ha
    · rw [← a5, ← b5]; exact hb
    · rw [k3, g4, f4, e4, d4]
    · rw [k4, g5, f5, e5, d5]

/-- C6: a tick whose thermal reading is absent records the sentinel `-300` for
`Ts`, `Ts2` and `Ts3`; a tick whose spectral reading is absent sets
`totalIntensity`, `intensitySpectrum`, `wavelengths` and `meanShift` all to
`-1` (and records `-1` as the intensity); and the pre-loop container block
sets `saveSpectra`, `saveOscMeas` and `saveEmbMeas` to `False` when the
corresponding initial reading is `None`. -/
theorem C6_sentinels_and_autodisable :
    unpackThermal none = ((-300, -300, -300), none) ∧
    unpackSpectral none = (-1, PyVal.num (-1), PyVal.num (-1), -1) ∧
    (∀ (o : RunOpts) (devs : Devices) (ps fs : List ℚ) (i : Nat) (inp : TickInputs)
      (st st' : LoopState),
      loopBody o devs ps fs i inp st = Except.ok st' →
      async_get_temp o inp.thermal = none → o.saveData = true →
      (∃ T, st.Tsave = some T ∧ st'.Tsave = some (T.set i (-300))) ∧
      (o.saveSpatialTemp = true → ∃ a b, st.Ts2save = some a ∧ st.Ts3save = some b ∧
        st'.Ts2save = some (a.set i (-300)) ∧ st'.Ts3save = some (b.set i (-300)))) ∧
    (∀ (o : RunOpts) (devs : Devices) (ps fs : List ℚ) (i : Nat) (inp : TickInputs)
      (st st' : LoopState),
      loopBody o devs ps fs i inp st = Except.ok st' →
      async_get_spectra devs.spec o inp.specRaw = none → o.saveData = true →
      ∃ I, st.Isave = some I ∧ st'.Isave = some (I.set i (-1))) ∧
    (∀ (o : RunOpts) (Niter : Nat) (th : Option ThermalReading) (sp : Option SpecResult)
      (os : Option OscReading) (em : Option (List ℚ)) (pt : ℚ) (o' : RunOpts)
      (st' : LoopState),
      setupContainers o Niter th sp os em pt = Except.ok (o', st') →
      (sp = none → o'.saveSpectra = false) ∧
      (os = none → o'.saveOscMeas = false) ∧
      (em = none → o'.saveEmbMeas = false)) := by
  refine ⟨rfl, rfl, ?_, ?_, ?_⟩
  · intro o devs ps fs i inp st st' h hth hsd
    constructor
    · obtain ⟨T, I, hT, hI, hT', hI'⟩ := loopBody_scalar hsd h
      refine ⟨T, hT, ?_⟩
      rw [hT']
      have : (async_measure devs o inp).thermal = none := hth
      rw [this]
      rfl
    · intro hsp
      obtain ⟨a, b, ha, hb, ha', hb'⟩ := loopBody_spatial hsp h
      refine ⟨a, b, ha, hb, ?_, ?_⟩
      · rw [ha']
        have : (async_measure devs o inp).thermal = none := hth
        rw [this]
        rfl
      · rw [hb']
        have : (async_measure devs o inp).thermal = none := hth
        rw [this]
        rfl
  · intro o devs ps fs i inp st st' h hspec hsd
    obtain ⟨T, I, hT, hI, hT', hI'⟩ := loopBody_scalar hsd h
    refine ⟨I, hI, ?_⟩
    rw [hI']
    have : (async_measure devs o inp).spectral = none := hspec
    rw [this]
    rfl
  · intro o Niter th sp os em pt o' st' h
    obtain ⟨_, _, _, _, _, _, _, _, _, _, _, _, _, _, _, _, _, _, q10, q11, q12, _⟩ :=
      setupContainers_props h
    exact ⟨q10, q11, q12⟩

theorem pairOrDefault_ok {x : Except String (RunOpts × LoopState)}
    (h : exceptIsOk x = true) : x = Except.ok (pairOrDefault x) := by
  cases x with
  | ok r => rfl
  | error e => simp [exceptIsOk] at h

/-- C6 witness: a concrete tick with camera and spectrometer collection off
records `-300` and `-1`, and a concrete container setup with no initial
spectral, oscilloscope or embedded reading disables the three save flags. -/
theorem C6_witness :
    (stOrDefault (loopBody oSentinel devsAll [5] [7] 0 inpBase stSentinel)).Tsave =
      some [-300] ∧
    (stOrDefault (loopBody oSentinel devsAll [5] [7] 0 inpBase stSentinel)).Ts2save =
      some [-300] ∧
    (stOrDefault (loopBody oSentinel devsAll [5] [7] 0 inpBase stSentinel)).Isave =
      some [-1] ∧
    (pairOrDefault
      (setupContainers oAllOn 1 (some inpBase.thermal) none none none 0)).1.saveSpectra
      = false ∧
    (pairOrDefault
      (setupContainers oAllOn 1 (some inpBase.thermal) none none none 0)).1.saveOscMeas
      = false ∧
    (pairOrDefault
      (setupContainers oAllOn 1 (some inpBase.thermal) none none none 0)).1.saveEmbMeas
      = false := by
  obtain ⟨_, _, hThermal, hSpec, hSetup⟩ := C6_sentinels_and_autodisable
  have hok : loopBody oSentinel devsAll [5] [7] 0 inpBase stSentinel =
      Except.ok (stOrDefault (loopBody oSentinel devsAll [5] [7] 0 inpBase stSentinel)) :=
    stOrDefault_ok (by decide)
  obtain ⟨⟨T, hT, hT'⟩, hsp⟩ :=
    hThermal oSentinel devsAll [5] [7] 0 inpBase stSentinel _ hok (by decide) rfl
  obtain ⟨a, b, ha, hb, ha', hb'⟩ := hsp rfl
  obtain ⟨I, hI, hI'⟩ :=
    hSpec oSentinel devsAll [5] [7] 0 inpBase stSentinel _ hok (by decide) rfl
  have hsetup_ok : setupContainers oAllOn 1 (some inpBase.thermal) none none none 0 =
      Except.ok ((pairOrDefault
          (setupContainers oAllOn 1 (some inpBase.thermal) none none none 0)).1,
        (pairOrDefault
          (setupContainers oAllOn 1 (some inpBase.thermal) none none none 0)).2) := by
    nth_rewrite 1 [pairOrDefault_ok
      (x := setupContainers oAllOn 1 (some inpBase.thermal) none none none 0) (by decide)]
    rfl
  obtain ⟨hq1, hq2, hq3⟩ := hSetup oAllOn 1 (some inpBase.thermal) none none none 0 _ _
    hsetup_ok
  refine ⟨?_, ?_, ?_, hq1 rfl, hq2 rfl, hq3 rfl⟩
  · rw [hT']
    have hTv : T = [0] := by
      have h0 : stSentinel.Tsave = some [0] := by decide
      rw [h0] at hT
      injection hT with h2
      exact h2.symm
    subst hTv
    decide
  · rw [ha']
    have hav : a = [0] := by
      have h0 : stSentinel.Ts2save = some [0] := by decide
      rw [h0] at ha
      injection ha with h2
      exact h2.symm
    subst hav
    decide
  · rw [hI']
    have hIv : I = [0] := by
      have h0 : stSentinel.Isave = some [0] := by decide
      rw [h0] at hI
      injection hI with h2
      exact h2.symm
    subst hIv
    decide


/-! ## Claim C3: the frame store -/

/-- A successful loop iteration leaves the frame store untouched: the image
branch can only complete with `saveEntireImage` off (its `raw_img.shape`
read raises), so `frameEvents` and `curFile` never change. -/
theorem loopBody_frames {o : RunOpts} {devs : Devices} {ps fs : List ℚ} {i : Nat}
    {inp : TickInputs} {st st' : LoopState}
    (h : loopBody o devs ps fs i inp st = Except.ok st') :
    st'.frameEvents = st.frameEvents ∧ st'.curFile = st.curFile := by
  obtain ⟨s1, s2, s3, s4, s5, s6, P, q, h1, h2, h3, h4, h5, h6, hP, hq, h7⟩ := loopBody_ok h
  obtain ⟨a1, a2, a3, a4, a5, a6, a7, a8, a9, a10⟩ :=
    applyImgUpd_fields st (unpackThermal (async_measure devs o inp).thermal).2
  obtain ⟨b1, b2, b3, b4, b5, b6, b7, b8, b9, b10⟩ := tickSaveScalar_fields h1
  obtain ⟨c1, c2, c3, c4, c5, c6, c7, c8⟩ := tickSpatial_fields h2
  obtain ⟨hIoff, hs3⟩ := tickImage_ok h3
  subst hs3
  obtain ⟨e1, e2, e3, e4, e5, e6, e7, e8, e9, e10⟩ := tickSpectraSave_fields h4
  obtain ⟨f1, f2, f3, f4, f5, f6, f7, f8, f9, f10⟩ := tickOsc_fields h5
  obtain ⟨g1, g2, g3, g4, g5, g6, g7, g8, g9, g10⟩ := tickEmb_fields h6
  obtain ⟨k1, k2, k3, k4, k5, k6, k7, k8⟩ := tickTiming_fields h7
  constructor
  · rw [k5, g6, f6, e6, c4, b6, a6]
  · rw [k6, g7, f7, e7, c5, b7, a7]

/-- The whole measurement loop leaves the frame store untouched. -/
theorem runLoop_frames {o : RunOpts} {devs : Devices} {ps fs : List ℚ}
    {ticks : Nat → TickInputs} {st0 : LoopState} :
    ∀ k st', runLoop o devs ps fs ticks st0 k = Except.ok st' →
      st'.frameEvents = st0.frameEvents ∧ st'.curFile = st0.curFile := by
  intro k
  induction k with
  | zero =>
    intro st' h
    simp only [runLoop] at h
    injection h with h
    subst h
    exact ⟨rfl, rfl⟩
  | succ k ih =>
    intro st' h
    simp only [runLoop] at h
    obtain ⟨mid, hmid, hstep⟩ := except_bind_ok.mp h
    obtain ⟨ih1, ih2⟩ := ih mid hmid
    obtain ⟨p1, p2⟩ := loopBody_frames hstep
    exact ⟨p1.trans ih1, p2.trans ih2⟩

/-- C3 (refuted - code bug): the frame store never operates.
`thermalCamOut[3]` is the `(data, img)` tuple that
`getSurfaceTemperature(True, True)` returns (thermal_camera.py:228), so with
`saveEntireImage` enabled the `raw_img0.shape` read at experiments.py:231
raises `AttributeError` during container setup: no pre-loop setup with image
saving on ever succeeds (concretely, the setup of the spec's scenario-C
450-iteration run fails with the attribute error), and every completed run
ends with an empty frame-op trace - no frame is ever written at any offset
and no batch file is ever created or released, contradicting the claimed
frame-placement and batch-count behaviour. -/
theorem C3_frame_store :
    (∀ (o : RunOpts) (devs : Devices) (Niter : Nat) (init : TickInputs) (pt : ℚ)
        (r : RunOpts × LoopState),
        setupRun o devs Niter init pt = Except.ok r → o.saveEntireImage = false) ∧
    setupRun oImgRun devsAll 450 inpBase 0 =
      Except.error "AttributeError: tuple object has no attribute shape" ∧
    (∀ (o : RunOpts) (devices : Option Devices) (ps fs : List ℚ) (init : TickInputs)
        (ticks : Nat → TickInputs) (pt : ℚ) (res : ExpData × List Artifact × LoopState),
        run_open_loop o devices ps fs init ticks pt = Except.ok res →
        res.2.2.frameEvents = [] ∧ writesOf res.2.2.frameEvents = [] ∧
        res.2.2.frameEvents.countP isOpenEv = 0) := by
  refine ⟨?_, rfl, ?_⟩
  · intro o devs Niter init pt r h
    obtain ⟨o2, st2⟩ := r
    obtain ⟨_, _, hcont⟩ := setupRun_ok h
    obtain ⟨_, _, _, _, _, _, _, _, _, _, _, _, _, _, _, _, _, _, _, _, _, hImgOff⟩ :=
      setupContainers_props hcont
    exact hImgOff
  · intro o devices ps fs init ticks pt res h
    simp only [run_open_loop] at h
    obtain ⟨r, hr, h⟩ := except_bind_ok.mp h
    obtain ⟨o2, d, stt⟩ := r
    obtain ⟨devs, st0, stL, hdev, hsetup, hloop, hstF, hbuild⟩ := runToRecord_ok hr
    obtain ⟨_, _, hcont⟩ := setupRun_ok hsetup
    obtain ⟨p1, p2, p3, p4, p5, p6, p7, p8, p9, q1, q2, q3, q4, q5, q6, q7, q8, q9,
      q10, q11, q12, _⟩ := setupContainers_props hcont
    obtain ⟨lf, lc⟩ := runLoop_frames (min ps.length fs.length) stL hloop
    rw [lc, p8] at hstF
    simp only [Option.isSome_none, Bool.false_eq_true, if_false] at hstF
    subst hstF
    have hfe : stt.frameEvents = [] := by rw [lf, p7]
    rcases hE : exp_data_saver d o2 with ⟨arts, err⟩
    rw [hE] at h
    cases err with
    | some e => exact Except.noConfusion h
    | none =>
      injection h with h
      subst h
      refine ⟨hfe, ?_, ?_⟩
      · simp [writesOf, hfe]
      · simp [hfe]

/-- C3 witness: the refutation at concrete inputs - a completed baseline run
(image saving off) has an empty frame-op trace with zero frame writes and
zero batch-file opens, a concrete successful setup has image saving off, and
the scenario-C setup attempt fails with the attribute error. -/
theorem C3_witness :
    oBase.saveEntireImage = false ∧
    setupRun oImgRun devsAll 450 inpBase 0 =
      Except.error "AttributeError: tuple object has no attribute shape" ∧
    (resOrDefault (run_open_loop oBase (some devsAll) [5] [7] inpBase
      ticksBase 0)).2.2.frameEvents = [] ∧
    writesOf (resOrDefault (run_open_loop oBase (some devsAll) [5] [7] inpBase
      ticksBase 0)).2.2.frameEvents = [] ∧
    (resOrDefault (run_open_loop oBase (some devsAll) [5] [7] inpBase
      ticksBase 0)).2.2.frameEvents.countP isOpenEv = 0 := by
  obtain ⟨h1, h2, h3⟩ := C3_frame_store
  have hok : run_open_loop oBase (some devsAll) [5] [7] inpBase ticksBase 0 =
      Except.ok (resOrDefault (run_open_loop oBase (some devsAll) [5] [7] inpBase
        ticksBase 0)) :=
    resOrDefault_ok (by decide)
  have hsetup : setupRun oBase devsAll 1 inpBase 0 =
      Except.ok (pairOrDefault (setupRun oBase devsAll 1 inpBase 0)) :=
    pairOrDefault_ok (by decide)
  obtain ⟨e1, e2, e3⟩ := h3 oBase (some devsAll) [5] [7] inpBase ticksBase 0 _ hok
  exact ⟨h1 oBase devsAll 1 inpBase 0 _ hsetup, h2, e1, e2, e3⟩
